import Mathlib

/-!
Verification of the QuickPick prototype backend: a shallow embedding of the
trip-lifecycle and driver-matching core (Express route handlers over
Firestore, from `backend/src/routes/rides.js`, the deliveries routes and the
drivers routes) as pure Lean functions over explicit state.

Modelling conventions:
* Firestore documents become Lean structures; a collection becomes an
  association list `List (String × α)`.
* JavaScript numbers become `ℚ` (exact rationals standing in for the floats
  the code manipulates); timestamps become `Int` epoch milliseconds.
* A request handler becomes a function returning `Except ApiError α`; the
  state-changing handlers are written in state-passing style
  `World → Except ApiError Unit × World` so that the failure branches
  demonstrably leave the store untouched, exactly as the early
  `return res.status(...)` exits in the source do.
* The haversine `calculateDistance` helper is floating-point trigonometry;
  the matching functions are therefore parameterised over an abstract
  distance function `dist : Location → Location → ℚ` and the theorems
  quantify over it.  (For counterexamples we use the one value of the real
  function that is exact: the haversine distance of a point to itself is 0.)
* Fields of a document that no claim mentions (addresses, placeIds, photo
  URLs of the driver documents, ratings, counters) are projected away.
-/

/-- The trip status labels appearing in the source (ride labels and delivery
labels share one enumeration, as the admin routes list them together). -/
inductive TripStatus
  | requested
  | confirmed
  | driver_assigned
  | arriving
  | picked_up
  | in_progress
  | in_transit
  | completed
  | cancelled
deriving DecidableEq, Repr, Fintype

/-- A latitude/longitude pair (the coordinate part of the structured
locations stored on trips and drivers). -/
structure Location where
  latitude : ℚ
  longitude : ℚ
deriving DecidableEq, Repr

/-- The slice of `vehicleInfo` the matching code reads
(`vehicleInfo.type`). -/
structure VehicleInfo where
  type : String
deriving DecidableEq, Repr

/-- A driver document from the `drivers` collection (the fields the
lifecycle and matching handlers read or write). -/
structure Driver where
  verificationStatus : String
  isOnline : Bool
  isAvailable : Bool
  currentRideId : Option String
  currentDeliveryId : Option String
  currentLocation : Option Location
  vehicleInfo : VehicleInfo
  updatedAt : Int
deriving DecidableEq, Repr

/-- A ride document from the `rides` collection. -/
structure Ride where
  userId : String
  driverId : Option String
  pickup : Location
  destination : Location
  vehicleType : String
  fare : ℚ
  notes : String
  status : TripStatus
  createdAt : Int
  updatedAt : Int
  acceptedAt : Option Int
  startedAt : Option Int
  completedAt : Option Int
  cancelledAt : Option Int
  cancelledBy : Option String
  cancellationReason : Option String
  cancellationFee : Option ℚ
deriving DecidableEq, Repr

/-- A delivery document from the `deliveries` collection. -/
structure Delivery where
  senderId : String
  driverId : Option String
  pickup : Location
  destination : Location
  packageType : String
  fare : ℚ
  notes : String
  status : TripStatus
  proofPhotoUrl : Option String
  createdAt : Int
  updatedAt : Int
  acceptedAt : Option Int
  pickedUpAt : Option Int
  completedAt : Option Int
  cancelledAt : Option Int
  cancelledBy : Option String
  cancellationReason : Option String
  cancellationFee : Option ℚ
deriving DecidableEq, Repr

/-- A payment record as appended to the `payments` collection on
completion. -/
structure Payment where
  rideId : Option String
  deliveryId : Option String
  amount : ℚ
  status : String
  createdAt : Int
deriving DecidableEq, Repr

/-- A record appended to the `cancellations` collection. -/
structure CancellationRec where
  tripId : String
  cancelledBy : String
  reason : String
  cancellationFee : ℚ
  createdAt : Int
deriving DecidableEq, Repr

/-- The authenticated caller (`req.user`): uid and role string. -/
structure AuthUser where
  uid : String
  role : String
deriving DecidableEq, Repr

/-- The error taxonomy of the design (§7 of the spec), tagged onto the
source's error responses: 403 responses are `forbidden`, 404 `notFound`,
and the 400 responses split into malformed-input (`validation`) and
precondition-no-longer-holds (`conflict`) exactly as §7 classifies them.
The string is the `error:` field of the JSON response in the source. -/
inductive ApiError
  | validation (msg : String)
  | conflict (msg : String)
  | forbidden (msg : String)
  | notFound (msg : String)
deriving DecidableEq, Repr

deriving instance DecidableEq for Except

/-- A structured location as it arrives in a request body: every field may
be absent. -/
structure LocInput where
  address : Option String
  latitude : Option ℚ
  longitude : Option ℚ
  placeId : Option String
deriving DecidableEq, Repr

/-- JavaScript truthiness of a possibly-absent number: `undefined`, `null`
and `0` are falsy (`NaN` is not modelled; all numbers are exact). -/
def truthyQ : Option ℚ → Bool
  | none => false
  | some q => if q = 0 then false else true

/-- JavaScript truthiness of a possibly-absent string: `undefined`, `null`
and the empty string are falsy. -/
def truthyS : Option String → Bool
  | none => false
  | some s => if s = "" then false else true

/-- The recipient-phone format check of the deliveries create handler:
the regex `+91[6-9] then nine digits`. -/
def phoneFormatOk (s : String) : Bool :=
  match s.data with
  | '+' :: '9' :: '1' :: c :: rest =>
      ((c == '6') || (c == '7') || (c == '8') || (c == '9')) &&
        (rest.length == 9) && rest.all Char.isDigit
  | _ => false

/-- `Math.round(q * 100) / 100`: the two-decimal rounding the handlers apply
to distances and fees before returning them. -/
def round2 (q : ℚ) : ℚ := ((round (q * 100) : ℤ) : ℚ) / 100

/-- `POST /api/rides/create`.  Validation order follows the handler:
required-field truthiness, coordinate truthiness, vehicle type against the
closed list, fare positivity, then the active-ride conflict check
(`hasActiveRide` abstracts the Firestore query for the caller's
non-terminal rides).  On success the created ride document is returned. -/
def createRide (u : AuthUser) (pickup destination : Option LocInput)
    (vehicleType : Option String) (fare : Option ℚ) (notes : Option String)
    (hasActiveRide : Bool) (now : Int) : Except ApiError Ride :=
  match pickup, destination with
  | some p, some dst =>
    if ¬ (truthyS vehicleType ∧ truthyQ fare) then
      .error (.validation "Missing required fields")
    else if ¬ (truthyQ p.latitude ∧ truthyQ p.longitude ∧
        truthyQ dst.latitude ∧ truthyQ dst.longitude) then
      .error (.validation "Invalid coordinates")
    else
      let vt := vehicleType.getD ""
      let f := fare.getD 0
      if ¬ (vt = "economy" ∨ vt = "comfort" ∨ vt = "xl") then
        .error (.validation "Invalid vehicle type")
      else if f ≤ 0 then
        .error (.validation "Invalid fare")
      else if hasActiveRide then
        .error (.conflict "Active ride exists")
      else
        .ok { userId := u.uid
              driverId := none
              pickup := ⟨p.latitude.getD 0, p.longitude.getD 0⟩
              destination := ⟨dst.latitude.getD 0, dst.longitude.getD 0⟩
              vehicleType := vt
              fare := f
              notes := notes.getD ""
              status := .requested
              createdAt := now
              updatedAt := now
              acceptedAt := none
              startedAt := none
              completedAt := none
              cancelledAt := none
              cancelledBy := none
              cancellationReason := none
              cancellationFee := none }
  | _, _ => .error (.validation "Missing required fields")

/-- `POST /api/deliveries/create`: same shape as ride creation plus the
recipient fields, the package-type list and the phone-format check. -/
def createDelivery (u : AuthUser) (pickup destination : Option LocInput)
    (packageType : Option String) (fare : Option ℚ)
    (recipientName recipientPhone : Option String) (notes : Option String)
    (hasActiveDelivery : Bool) (now : Int) : Except ApiError Delivery :=
  match pickup, destination with
  | some p, some dst =>
    if ¬ (truthyS packageType ∧ truthyQ fare ∧
        truthyS recipientName ∧ truthyS recipientPhone) then
      .error (.validation "Missing required fields")
    else if ¬ (truthyQ p.latitude ∧ truthyQ p.longitude ∧
        truthyQ dst.latitude ∧ truthyQ dst.longitude) then
      .error (.validation "Invalid coordinates")
    else
      let pt := packageType.getD ""
      let f := fare.getD 0
      if ¬ (pt = "document" ∨ pt = "package" ∨ pt = "food" ∨
          pt = "electronics" ∨ pt = "other") then
        .error (.validation "Invalid package type")
      else if f ≤ 0 then
        .error (.validation "Invalid fare")
      else if ¬ phoneFormatOk (recipientPhone.getD "") then
        .error (.validation "Invalid recipient phone number")
      else if hasActiveDelivery then
        .error (.conflict "Active delivery exists")
      else
        .ok { senderId := u.uid
              driverId := none
              pickup := ⟨p.latitude.getD 0, p.longitude.getD 0⟩
              destination := ⟨dst.latitude.getD 0, dst.longitude.getD 0⟩
              packageType := pt
              fare := f
              notes := notes.getD ""
              status := .requested
              proofPhotoUrl := none
              createdAt := now
              updatedAt := now
              acceptedAt := none
              pickedUpAt := none
              completedAt := none
              cancelledAt := none
              cancelledBy := none
              cancellationReason := none
              cancellationFee := none }
  | _, _ => .error (.validation "Missing required fields")

/-- Point update of one driver document in the `drivers` collection. -/
def updateDriver (uid : String) (f : Driver → Driver) :
    List (String × Driver) → List (String × Driver) :=
  List.map (fun p => if p.1 = uid then (p.1, f p.2) else p)

/-- The store a single ride's lifecycle handlers touch: the ride document,
the `drivers` collection, and the `payments` / `cancellations` sinks. -/
structure RideWorld where
  rideId : String
  ride : Ride
  drivers : List (String × Driver)
  payments : List Payment
  cancellations : List CancellationRec
deriving DecidableEq, Repr

/-- The `rideRef.update({...})` performed by the accept handler once its
checks have passed. -/
def acceptRideUpdate (uid : String) (now : Int) (r : Ride) : Ride :=
  { r with driverId := some uid, status := .confirmed,
           acceptedAt := some now, updatedAt := now }

/-- `PUT /api/rides/:id/accept`.  Checks, in the handler's order: caller
role is `driver`; the caller's driver document exists and is `verified`;
the ride status is still `requested`.  Then it writes the ride update and
flips the caller's driver document to busy.  (Note: the handler performs a
plain `get()` followed by `update()`, not a transaction; this sequential
function is its behaviour when no other request interleaves.  The
interleaved behaviour is modelled separately below.) -/
def acceptRide (u : AuthUser) (now : Int) (w : RideWorld) :
    Except ApiError Unit × RideWorld :=
  if u.role ≠ "driver" then (.error (.forbidden "Access denied"), w)
  else
    match w.drivers.lookup u.uid with
    | none => (.error (.forbidden "Driver not verified"), w)
    | some d =>
      if d.verificationStatus ≠ "verified" then
        (.error (.forbidden "Driver not verified"), w)
      else if w.ride.status ≠ .requested then
        (.error (.conflict "Ride not available"), w)
      else
        (.ok (),
          { w with
            ride := acceptRideUpdate u.uid now w.ride
            drivers := updateDriver u.uid
              (fun dd => { dd with currentRideId := some w.rideId,
                                   isAvailable := false, updatedAt := now })
              w.drivers })

/-- `PUT /api/rides/:id/start`: assigned driver only; status must be
`confirmed` or `arriving`; moves the ride to `in_progress`. -/
def startRide (u : AuthUser) (now : Int) (w : RideWorld) :
    Except ApiError Unit × RideWorld :=
  if w.ride.driverId ≠ some u.uid then (.error (.forbidden "Access denied"), w)
  else if w.ride.status ≠ .confirmed ∧ w.ride.status ≠ .arriving then
    (.error (.conflict "Cannot start ride"), w)
  else
    (.ok (),
      { w with ride := { w.ride with status := .in_progress,
                                     startedAt := some now, updatedAt := now } })

/-- `PUT /api/rides/:id/complete`: assigned driver only; status must be
`in_progress`; completes the ride, releases the driver and appends one
pending payment record for the quoted fare. -/
def completeRide (u : AuthUser) (now : Int) (w : RideWorld) :
    Except ApiError Unit × RideWorld :=
  if w.ride.driverId ≠ some u.uid then (.error (.forbidden "Access denied"), w)
  else if w.ride.status ≠ .in_progress then
    (.error (.conflict "Cannot complete ride"), w)
  else
    (.ok (),
      { w with
        ride := { w.ride with status := .completed,
                              completedAt := some now, updatedAt := now }
        drivers := updateDriver u.uid
          (fun dd => { dd with currentRideId := none,
                               isAvailable := true, updatedAt := now })
          w.drivers
        payments := w.payments ++
          [{ rideId := some w.rideId, deliveryId := none,
             amount := w.ride.fare, status := "pending", createdAt := now }] })

/-- The `cancelledBy` label of the ride cancel handler:
`isPassenger ? 'passenger' : isDriver ? 'driver' : 'admin'`. -/
def rideCancelledBy (u : AuthUser) (r : Ride) : String :=
  if r.userId = u.uid then "passenger"
  else if r.driverId = some u.uid then "driver" else "admin"

/-- The fee computation shared verbatim by the two cancel handlers: if a
driver was assigned (`driverId && acceptedAt` both set) and the elapsed
minutes `(now - acceptedAt) / (1000 * 60)` exceed 2 and the canceller
label equals the requester label (`"passenger"` for rides, `"sender"` for
deliveries), the fee is `fare * 0.1`, else 0. -/
def cancelFeeFormula (fare : ℚ) (driverId : Option String)
    (acceptedAt : Option Int) (now : Int)
    (cancelledBy requesterLabel : String) : ℚ :=
  match driverId, acceptedAt with
  | some _, some t =>
    let timeDiff : ℚ := ((now : ℚ) - (t : ℚ)) / (1000 * 60)
    if timeDiff > 2 ∧ cancelledBy = requesterLabel then fare * (1 / 10)
    else 0
  | _, _ => 0

/-- `PUT /api/rides/:id/cancel`: caller must be the passenger, the assigned
driver, or an admin; the ride must not be terminal.  The fee is 10% of the
fare exactly when a driver was assigned (`driverId && acceptedAt`), more
than two minutes elapsed since acceptance, and the canceller is the
passenger.  Releases the assigned driver and appends a cancellation
record. -/
def cancelRide (u : AuthUser) (reason : Option String) (now : Int)
    (w : RideWorld) : Except ApiError Unit × RideWorld :=
  let isPassenger : Bool := w.ride.userId == u.uid
  let isDriver : Bool := w.ride.driverId == some u.uid
  let isAdmin : Bool := u.role == "admin"
  if ¬ (isPassenger || isDriver || isAdmin) then
    (.error (.forbidden "Access denied"), w)
  else if w.ride.status = .completed ∨ w.ride.status = .cancelled then
    (.error (.conflict "Cannot cancel ride"), w)
  else
    let cancelledBy := rideCancelledBy u w.ride
    let fee : ℚ := cancelFeeFormula w.ride.fare w.ride.driverId
      w.ride.acceptedAt now cancelledBy "passenger"
    (.ok (),
      { w with
        ride := { w.ride with status := .cancelled,
                              cancelledBy := some cancelledBy,
                              cancellationReason :=
                                some (reason.getD "No reason provided"),
                              cancellationFee := some fee,
                              cancelledAt := some now, updatedAt := now }
        drivers :=
          match w.ride.driverId with
          | some did => updateDriver did
              (fun dd => { dd with currentRideId := none,
                                   isAvailable := true, updatedAt := now })
              w.drivers
          | none => w.drivers
        cancellations := w.cancellations ++
          [{ tripId := w.rideId, cancelledBy := cancelledBy,
             reason := reason.getD "No reason provided",
             cancellationFee := fee, createdAt := now }] })

/-- The store a single delivery's lifecycle handlers touch. -/
structure DeliveryWorld where
  deliveryId : String
  delivery : Delivery
  drivers : List (String × Driver)
  payments : List Payment
  cancellations : List CancellationRec
deriving DecidableEq, Repr

/-- The `deliveryRef.update({...})` of the delivery accept handler. -/
def acceptDeliveryUpdate (uid : String) (now : Int) (d : Delivery) : Delivery :=
  { d with driverId := some uid, status := .confirmed,
           acceptedAt := some now, updatedAt := now }

/-- `PUT /api/deliveries/:id/accept`: same checks and writes as the ride
accept handler, with `currentDeliveryId` instead of `currentRideId`. -/
def acceptDelivery (u : AuthUser) (now : Int) (w : DeliveryWorld) :
    Except ApiError Unit × DeliveryWorld :=
  if u.role ≠ "driver" then (.error (.forbidden "Access denied"), w)
  else
    match w.drivers.lookup u.uid with
    | none => (.error (.forbidden "Driver not verified"), w)
    | some d =>
      if d.verificationStatus ≠ "verified" then
        (.error (.forbidden "Driver not verified"), w)
      else if w.delivery.status ≠ .requested then
        (.error (.conflict "Delivery not available"), w)
      else
        (.ok (),
          { w with
            delivery := acceptDeliveryUpdate u.uid now w.delivery
            drivers := updateDriver u.uid
              (fun dd => { dd with currentDeliveryId := some w.deliveryId,
                                   isAvailable := false, updatedAt := now })
              w.drivers })

/-- `PUT /api/deliveries/:id/pickup`: assigned driver only; status must be
`confirmed`; moves the delivery to `picked_up`. -/
def pickupDelivery (u : AuthUser) (now : Int) (w : DeliveryWorld) :
    Except ApiError Unit × DeliveryWorld :=
  if w.delivery.driverId ≠ some u.uid then
    (.error (.forbidden "Access denied"), w)
  else if w.delivery.status ≠ .confirmed then
    (.error (.conflict "Cannot confirm pickup"), w)
  else
    (.ok (),
      { w with delivery := { w.delivery with status := .picked_up,
                                             pickedUpAt := some now,
                                             updatedAt := now } })

/-- `PUT /api/deliveries/:id/complete`: assigned driver only; status must
be `picked_up` or `in_transit`; completes the delivery, stores the proof
photo URL, releases the driver and appends one pending payment record for
the quoted fare. -/
def completeDelivery (u : AuthUser) (proofPhotoUrl : Option String)
    (now : Int) (w : DeliveryWorld) : Except ApiError Unit × DeliveryWorld :=
  if w.delivery.driverId ≠ some u.uid then
    (.error (.forbidden "Access denied"), w)
  else if w.delivery.status ≠ .picked_up ∧ w.delivery.status ≠ .in_transit then
    (.error (.conflict "Cannot complete delivery"), w)
  else
    (.ok (),
      { w with
        delivery := { w.delivery with status := .completed,
                                      completedAt := some now,
                                      proofPhotoUrl := proofPhotoUrl,
                                      updatedAt := now }
        drivers := updateDriver u.uid
          (fun dd => { dd with currentDeliveryId := none,
                               isAvailable := true, updatedAt := now })
          w.drivers
        payments := w.payments ++
          [{ rideId := none, deliveryId := some w.deliveryId,
             amount := w.delivery.fare, status := "pending",
             createdAt := now }] })

/-- The `cancelledBy` label of the delivery cancel handler. -/
def deliveryCancelledBy (u : AuthUser) (d : Delivery) : String :=
  if d.senderId = u.uid then "sender"
  else if d.driverId = some u.uid then "driver" else "admin"

/-- `PUT /api/deliveries/:id/cancel`: mirror of the ride cancel handler
with `senderId`/`"sender"` in place of `userId`/`"passenger"`. -/
def cancelDelivery (u : AuthUser) (reason : Option String) (now : Int)
    (w : DeliveryWorld) : Except ApiError Unit × DeliveryWorld :=
  let isSender : Bool := w.delivery.senderId == u.uid
  let isDriver : Bool := w.delivery.driverId == some u.uid
  let isAdmin : Bool := u.role == "admin"
  if ¬ (isSender || isDriver || isAdmin) then
    (.error (.forbidden "Access denied"), w)
  else if w.delivery.status = .completed ∨ w.delivery.status = .cancelled then
    (.error (.conflict "Cannot cancel delivery"), w)
  else
    let cancelledBy := deliveryCancelledBy u w.delivery
    let fee : ℚ := cancelFeeFormula w.delivery.fare w.delivery.driverId
      w.delivery.acceptedAt now cancelledBy "sender"
    (.ok (),
      { w with
        delivery := { w.delivery with status := .cancelled,
                                      cancelledBy := some cancelledBy,
                                      cancellationReason :=
                                        some (reason.getD "No reason provided"),
                                      cancellationFee := some fee,
                                      cancelledAt := some now,
                                      updatedAt := now }
        drivers :=
          match w.delivery.driverId with
          | some did => updateDriver did
              (fun dd => { dd with currentDeliveryId := none,
                                   isAvailable := true, updatedAt := now })
              w.drivers
          | none => w.drivers
        cancellations := w.cancellations ++
          [{ tripId := w.deliveryId, cancelledBy := cancelledBy,
             reason := reason.getD "No reason provided",
             cancellationFee := fee, createdAt := now }] })

/-! ### The accept race

The accept handler performs `rideRef.get()` and, after checking the
snapshot's status, a separate unconditional `rideRef.update(...)` — two
independent Firestore round trips, not a transaction.  Between a request's
read and its write, another driver's request may run either or both of its
own steps.  We model one accept call as two atomic events against the
shared ride document: `read i` stores a snapshot for caller `i`, and
`write i` re-runs the handler's status check *on that snapshot* and, if it
passes, applies `acceptRideUpdate` to the current document and reports
success; if the snapshot check fails the handler returns the
`Ride not available` conflict. -/

/-- One atomic event of an in-flight accept call by caller index `i`. -/
inductive RaceEvent
  | read (i : Nat)
  | write (i : Nat)
deriving DecidableEq, Repr

/-- Shared ride document plus the per-caller snapshot and per-caller
outcome (`none` while the call is still in flight, `some true` for a 200
response, `some false` for the conflict response). -/
structure RaceState where
  ride : Ride
  snaps : List (Option Ride)
  results : List (Option Bool)
deriving DecidableEq, Repr

/-- Execute one event of the interleaved accept race for the drivers
`uids` (caller `i` has uid `uids[i]`). -/
def raceStep (uids : List String) (now : Int) (s : RaceState) :
    RaceEvent → RaceState
  | .read i => { s with snaps := s.snaps.set i (some s.ride) }
  | .write i =>
    match s.snaps.get? i with
    | some (some snap) =>
      if snap.status = .requested then
        { s with
          ride := acceptRideUpdate ((uids.get? i).getD "") now s.ride
          results := s.results.set i (some true) }
      else
        { s with results := s.results.set i (some false) }
    | _ => s

/-- Run a whole schedule of accept events. -/
def raceRun (uids : List String) (now : Int) (events : List RaceEvent)
    (r : Ride) : RaceState :=
  events.foldl (raceStep uids now)
    { ride := r, snaps := List.replicate uids.length none
      results := List.replicate uids.length none }

/-! ### Matching queries -/

/-- The projection of a nearby-drivers result entry the claims are about:
which driver, at which (two-decimal-rounded) distance. -/
structure NearbyDriver where
  id : String
  distance : ℚ
deriving DecidableEq, Repr

/-- Comparison used by the `sort((a, b) => a.distance - b.distance)` calls:
ascending by distance. -/
def ndLE (a b : NearbyDriver) : Prop := a.distance ≤ b.distance

instance : DecidableRel ndLE := fun a b =>
  inferInstanceAs (Decidable (a.distance ≤ b.distance))

instance : IsTotal NearbyDriver ndLE := ⟨fun a b => le_total a.distance b.distance⟩

instance : IsTrans NearbyDriver ndLE := ⟨fun _ _ _ h h2 => le_trans h h2⟩

/-- The loop body shared by both nearby-driver handlers: for each
candidate with a recorded `currentLocation` whose distance from the query
point is within the radius, emit its id with the rounded distance; then
sort ascending by distance. -/
def nearbyScan (dist : Location → Location → ℚ) (q : Location)
    (searchRadius : ℚ) (cands : List (String × Driver)) :
    List NearbyDriver :=
  (cands.filterMap (fun p =>
    match p.2.currentLocation with
    | none => none
    | some loc =>
      if dist q loc ≤ searchRadius then
        some { id := p.1, distance := round2 (dist q loc) }
      else none)).insertionSort ndLE

/-- `GET /api/drivers/nearby` (drivers routes).  Query parameters
`latitude`/`longitude` may be absent (presence is checked first), the
radius defaults to 5, an optional vehicle-type filter narrows the
Firestore query.  Candidates are the online, available, verified drivers;
each with a recorded `currentLocation` within the radius is returned with
its rounded distance, sorted ascending. -/
def driversNearby (dist : Location → Location → ℚ)
    (latitude longitude : Option ℚ) (radius : Option ℚ)
    (vehicleType : Option String) (drivers : List (String × Driver)) :
    Except ApiError (List NearbyDriver) :=
  match latitude, longitude with
  | some lat, some lng =>
    if lat < -90 ∨ lat > 90 ∨ lng < -180 ∨ lng > 180 then
      .error (.validation "Invalid coordinates")
    else
      .ok (nearbyScan dist ⟨lat, lng⟩ (radius.getD 5)
        (drivers.filter (fun p =>
          p.2.isOnline && p.2.isAvailable &&
          (p.2.verificationStatus == "verified") &&
          (match vehicleType with
           | none => true
           | some vt => p.2.vehicleInfo.type == vt))))
  | _, _ => .error (.validation "Location required")

/-- `GET /api/rides/nearby` (rides routes).  Same shape as
`driversNearby` but the Firestore query filters only on
`isOnline` and `verificationStatus` — it does **not** filter on
`isAvailable` — and there is no vehicle-type filter. -/
def ridesNearby (dist : Location → Location → ℚ)
    (latitude longitude : Option ℚ) (radius : Option ℚ)
    (drivers : List (String × Driver)) :
    Except ApiError (List NearbyDriver) :=
  match latitude, longitude with
  | some lat, some lng =>
    if lat < -90 ∨ lat > 90 ∨ lng < -180 ∨ lng > 180 then
      .error (.validation "Invalid coordinates")
    else
      .ok (nearbyScan dist ⟨lat, lng⟩ (radius.getD 5)
        (drivers.filter (fun p =>
          p.2.isOnline && (p.2.verificationStatus == "verified"))))
  | _, _ => .error (.validation "Location required")

/-- The projection of a pending-jobs result entry: which trip, of which
kind, at which rounded distance from the driver. -/
structure Job where
  id : String
  type : String
  distance : ℚ
deriving DecidableEq, Repr

/-- Comparison for the pending-jobs sort: ascending by distance. -/
def jobLE (a b : Job) : Prop := a.distance ≤ b.distance

instance : DecidableRel jobLE := fun a b =>
  inferInstanceAs (Decidable (a.distance ≤ b.distance))

instance : IsTotal Job jobLE := ⟨fun a b => le_total a.distance b.distance⟩

instance : IsTrans Job jobLE := ⟨fun _ _ _ h h2 => le_trans h h2⟩

/-- `GET /api/drivers/pending-jobs`.  Checks, in the handler's order:
caller role is `driver`; the driver document exists and is `verified`;
the driver is online and available; the driver has a recorded
`currentLocation`.  Then gathers the `requested` rides and deliveries
whose pickup is within the fixed 10 km radius and sorts the combined list
ascending by distance. -/
def pendingJobs (dist : Location → Location → ℚ) (u : AuthUser)
    (driverDoc : Option Driver)
    (rides : List (String × Ride)) (deliveries : List (String × Delivery)) :
    Except ApiError (List Job) :=
  if u.role ≠ "driver" then .error (.forbidden "Access denied")
  else
    match driverDoc with
    | none => .error (.forbidden "Driver not verified")
    | some d =>
      if d.verificationStatus ≠ "verified" then
        .error (.forbidden "Driver not verified")
      else if ¬ (d.isOnline ∧ d.isAvailable) then
        .error (.conflict "Driver not available")
      else
        match d.currentLocation with
        | none => .error (.validation "Location not available")
        | some loc =>
          let searchRadius : ℚ := 10
          let rideJobs := rides.filterMap (fun p =>
            if p.2.status = .requested ∧ dist loc p.2.pickup ≤ searchRadius then
              some { id := p.1, type := "ride",
                     distance := round2 (dist loc p.2.pickup) : Job }
            else none)
          let deliveryJobs := deliveries.filterMap (fun p =>
            if p.2.status = .requested ∧ dist loc p.2.pickup ≤ searchRadius then
              some { id := p.1, type := "delivery",
                     distance := round2 (dist loc p.2.pickup) : Job }
            else none)
          .ok ((rideJobs ++ deliveryJobs).insertionSort jobLE)

/-! ### State graphs

`specRideEdge`/`specDeliveryEdge` transcribe the spec's §4.2 state graph
(these two are deliberately modelled from the spec's words, to be compared
against the transitions the code performs); `codeRideEdge`/
`codeDeliveryEdge` record exactly the status changes the handlers above can
commit; `statusRank` witnesses that the code's transitions only move
forward. -/

/-- The spec's §4.2 graph for rides:
`requested → confirmed → driver_assigned → arriving → in_progress →
completed`, with `cancelled` reachable from every state before the
terminal ones. -/
def specRideEdge : TripStatus → TripStatus → Bool
  | .requested, .confirmed => true
  | .confirmed, .driver_assigned => true
  | .driver_assigned, .arriving => true
  | .arriving, .in_progress => true
  | .in_progress, .completed => true
  | s, .cancelled => ¬ (s = .completed ∨ s = .cancelled)
  | _, _ => false

/-- The spec's §4.2 graph for deliveries:
`requested → confirmed → driver_assigned → picked_up → in_transit →
completed`, with `cancelled` reachable from every non-terminal state. -/
def specDeliveryEdge : TripStatus → TripStatus → Bool
  | .requested, .confirmed => true
  | .confirmed, .driver_assigned => true
  | .driver_assigned, .picked_up => true
  | .picked_up, .in_transit => true
  | .in_transit, .completed => true
  | s, .cancelled => ¬ (s = .completed ∨ s = .cancelled)
  | _, _ => false

/-- The status changes the ride handlers can commit: accept moves
`requested → confirmed`, start moves `confirmed`/`arriving` →
`in_progress`, complete moves `in_progress → completed`, cancel moves any
non-terminal status to `cancelled`. -/
def codeRideEdge : TripStatus → TripStatus → Bool
  | .requested, .confirmed => true
  | .confirmed, .in_progress => true
  | .arriving, .in_progress => true
  | .in_progress, .completed => true
  | s, .cancelled => ¬ (s = .completed ∨ s = .cancelled)
  | _, _ => false

/-- The status changes the delivery handlers can commit: accept moves
`requested → confirmed`, pickup moves `confirmed → picked_up`, complete
moves `picked_up`/`in_transit` → `completed`, cancel moves any
non-terminal status to `cancelled`. -/
def codeDeliveryEdge : TripStatus → TripStatus → Bool
  | .requested, .confirmed => true
  | .confirmed, .picked_up => true
  | .picked_up, .completed => true
  | .in_transit, .completed => true
  | s, .cancelled => ¬ (s = .completed ∨ s = .cancelled)
  | _, _ => false

/-- A forward rank on statuses: every transition the code commits strictly
increases it, so no operation moves a trip's status backward. -/
def statusRank : TripStatus → Nat
  | .requested => 0
  | .confirmed => 1
  | .driver_assigned => 2
  | .arriving => 3
  | .picked_up => 3
  | .in_progress => 4
  | .in_transit => 4
  | .completed => 5
  | .cancelled => 6

/-! ### Concrete sample data for counterexamples and witnesses -/

/-- A freshly created ride request. -/
def baseRide : Ride :=
  { userId := "user1", driverId := none,
    pickup := ⟨24, 92⟩, destination := ⟨25, 93⟩,
    vehicleType := "economy", fare := 164, notes := "",
    status := .requested, createdAt := 0, updatedAt := 0,
    acceptedAt := none, startedAt := none, completedAt := none,
    cancelledAt := none, cancelledBy := none,
    cancellationReason := none, cancellationFee := none }

/-- A freshly created delivery request. -/
def baseDelivery : Delivery :=
  { senderId := "user1", driverId := none,
    pickup := ⟨24, 92⟩, destination := ⟨25, 93⟩,
    packageType := "document", fare := 80, notes := "",
    status := .requested, proofPhotoUrl := none,
    createdAt := 0, updatedAt := 0,
    acceptedAt := none, pickedUpAt := none, completedAt := none,
    cancelledAt := none, cancelledBy := none,
    cancellationReason := none, cancellationFee := none }

/-- A verified, online, free driver. -/
def freeDriver : Driver :=
  { verificationStatus := "verified", isOnline := true, isAvailable := true,
    currentRideId := none, currentDeliveryId := none,
    currentLocation := some ⟨24, 92⟩, vehicleInfo := ⟨"car"⟩, updatedAt := 0 }

/-- A verified driver who is offline, unavailable and already holds an
active ride `r0`. -/
def busyDriver : Driver :=
  { verificationStatus := "verified", isOnline := false, isAvailable := false,
    currentRideId := some "r0", currentDeliveryId := none,
    currentLocation := none, vehicleInfo := ⟨"car"⟩, updatedAt := 0 }

/-- A verified, online driver currently holding a trip (`isAvailable`
false), positioned exactly at the sample query point. -/
def busyOnlineDriver : Driver :=
  { verificationStatus := "verified", isOnline := true, isAvailable := false,
    currentRideId := some "r0", currentDeliveryId := none,
    currentLocation := some ⟨24, 92⟩, vehicleInfo := ⟨"car"⟩, updatedAt := 0 }

/-- A ride already accepted by driver `d1`. -/
def confirmedRide : Ride :=
  { baseRide with status := .confirmed, driverId := some "d1",
                  acceptedAt := some 0, updatedAt := 0 }

/-- A ride world holding a fresh request and one free verified driver. -/
def freeWorld : RideWorld :=
  { rideId := "r1", ride := baseRide, drivers := [("d1", freeDriver)],
    payments := [], cancellations := [] }

/-- A ride world holding a confirmed ride assigned to `d1`. -/
def confirmedWorld : RideWorld :=
  { rideId := "r1", ride := confirmedRide, drivers := [("d1", busyDriver)],
    payments := [], cancellations := [] }

/-- Constant-zero distance: the exact value of the code's haversine
`calculateDistance` when the two coordinates coincide (used only with
candidates positioned exactly at the query point). -/
def dist0 : Location → Location → ℚ := fun _ _ => 0

/-- C1: the accept handler's status check and status write are two separate
Firestore operations, not an atomic unit.  In the interleaving where both
drivers read the `requested` snapshot before either writes, **both**
accept calls succeed (results `[some true, some true]`) and the ride ends
assigned to the second writer — contradicting the claimed
exactly-one-winner guarantee.  The sequential schedule, by contrast, does
give one success and one conflict, confirming that only the lost
atomicity is at fault. -/
theorem claim1_accept_race_double_success :
    baseRide.status = .requested ∧
    (raceRun ["driverA", "driverB"] 5
        [.read 0, .read 1, .write 0, .write 1] baseRide).results =
      [some true, some true] ∧
    (raceRun ["driverA", "driverB"] 5
        [.read 0, .read 1, .write 0, .write 1] baseRide).ride.driverId =
      some "driverB" ∧
    (raceRun ["driverA", "driverB"] 5
        [.read 0, .write 0, .read 1, .write 1] baseRide).results =
      [some true, some false] := by
  decide

/-- C3 counterexample: a verified driver who is offline, unavailable and
already holds ride `r0` (`currentRideId = some "r0"`) can still
successfully accept a fresh ride — the handler checks neither
`isOnline`, `isAvailable` nor the current-trip field, so the claimed
ConflictError does not occur. -/
theorem claim3_busy_driver_accepts :
    (acceptRide ⟨"d1", "driver"⟩ 5
      { rideId := "r1", ride := baseRide, drivers := [("d1", busyDriver)],
        payments := [], cancellations := [] }).1 = .ok () ∧
    busyDriver.isOnline = false ∧
    busyDriver.isAvailable = false ∧
    busyDriver.currentRideId = some "r0" := by
  decide

/-- C4 counterexample: from `confirmed`, the start handler moves a ride
directly to `in_progress`, but `confirmed → in_progress` is not an edge of
the spec's §4.2 graph (it skips the required `driver_assigned` and
`arriving` states), so the produced status sequence is not a valid path
through that graph. -/
theorem claim4_start_skips_states :
    confirmedWorld.ride.status = .confirmed ∧
    (startRide ⟨"d1", "driver"⟩ 5 confirmedWorld).1 = .ok () ∧
    (startRide ⟨"d1", "driver"⟩ 5 confirmedWorld).2.ride.status =
      .in_progress ∧
    specRideEdge .confirmed .in_progress = false := by
  decide

/-- C6 counterexample: `GET /api/rides/nearby` does not filter on
`isAvailable`, so a verified online driver who is busy with an active trip
(`isAvailable = false`) and sits exactly at the query point is returned —
the claim says the result contains only available drivers. -/
theorem claim6_unavailable_driver_listed :
    ridesNearby dist0 (some 24) (some 92) none [("d1", busyOnlineDriver)] =
      .ok [{ id := "d1", distance := 0 }] ∧
    busyOnlineDriver.isAvailable = false ∧
    busyOnlineDriver.currentLocation = some ⟨24, 92⟩ := by
  refine ⟨?_, rfl, rfl⟩
  norm_num [ridesNearby, nearbyScan, dist0, round2, busyOnlineDriver,
    List.filter, List.filterMap, List.insertionSort]

/-- C9 counterexample: ride creation performs no range validation on
coordinates — a pickup latitude of 200 (far outside [-90, 90]) passes the
truthiness check and a ride record is created with it. -/
theorem claim9_out_of_range_created :
    (createRide ⟨"user1", "user"⟩
        (some { address := none, latitude := some 200,
                longitude := some 92, placeId := none })
        (some { address := none, latitude := some 24,
                longitude := some 92, placeId := none })
        (some "economy") (some 164) none false 0).toOption.map
      (fun r => (r.status, r.pickup.latitude)) =
      some (.requested, 200) ∧
    ¬ ((200 : ℚ) ≤ 90) := by
  decide

/-! ### Characterisation lemmas for the ride handlers -/

theorem acceptRide_ok_iff (u : AuthUser) (now : Int) (w : RideWorld) :
    (acceptRide u now w).1 = .ok () ↔
      u.role = "driver" ∧ ∃ d, w.drivers.lookup u.uid = some d ∧
        d.verificationStatus = "verified" ∧ w.ride.status = .requested := by
  unfold acceptRide
  by_cases hrole : u.role = "driver"
  · simp only [hrole, ne_eq, not_true_eq_false, if_false]
    cases hl : w.drivers.lookup u.uid with
    | none => simp
    | some d =>
      by_cases hv : d.verificationStatus = "verified"
      · by_cases hs : w.ride.status = .requested
        · simp [hv, hs]
        · simp [hv, hs]
      · simp [hv]
  · simp [hrole]

theorem acceptRide_ok_post (u : AuthUser) (now : Int) (w : RideWorld)
    (h : (acceptRide u now w).1 = .ok ()) :
    (acceptRide u now w).2 =
      { w with ride := acceptRideUpdate u.uid now w.ride,
               drivers := updateDriver u.uid
                 (fun dd => { dd with currentRideId := some w.rideId,
                                      isAvailable := false, updatedAt := now })
                 w.drivers } := by
  rw [acceptRide_ok_iff] at h
  obtain ⟨hrole, d, hl, hv, hs⟩ := h
  unfold acceptRide
  simp [hrole, hl, hv, hs]

theorem startRide_ok_iff (u : AuthUser) (now : Int) (w : RideWorld) :
    (startRide u now w).1 = .ok () ↔
      w.ride.driverId = some u.uid ∧
        (w.ride.status = .confirmed ∨ w.ride.status = .arriving) := by
  unfold startRide
  split_ifs with h1 h2 <;> simp_all
  tauto

theorem startRide_ok_post (u : AuthUser) (now : Int) (w : RideWorld)
    (h : (startRide u now w).1 = .ok ()) :
    (startRide u now w).2 =
      { w with ride := { w.ride with status := .in_progress,
                                     startedAt := some now,
                                     updatedAt := now } } := by
  rw [startRide_ok_iff] at h
  obtain ⟨h1, h2⟩ := h
  unfold startRide
  rcases h2 with h2 | h2 <;> simp [h1, h2]

theorem completeRide_ok_iff (u : AuthUser) (now : Int) (w : RideWorld) :
    (completeRide u now w).1 = .ok () ↔
      w.ride.driverId = some u.uid ∧ w.ride.status = .in_progress := by
  unfold completeRide
  split_ifs with h1 h2 <;> simp_all

theorem completeRide_ok_post (u : AuthUser) (now : Int) (w : RideWorld)
    (h : (completeRide u now w).1 = .ok ()) :
    (completeRide u now w).2 =
      { w with
        ride := { w.ride with status := .completed,
                              completedAt := some now, updatedAt := now }
        drivers := updateDriver u.uid
          (fun dd => { dd with currentRideId := none,
                               isAvailable := true, updatedAt := now })
          w.drivers
        payments := w.payments ++
          [{ rideId := some w.rideId, deliveryId := none,
             amount := w.ride.fare, status := "pending",
             createdAt := now }] } := by
  rw [completeRide_ok_iff] at h
  obtain ⟨h1, h2⟩ := h
  unfold completeRide
  simp [h1, h2]

theorem cancelRide_ok_iff (u : AuthUser) (reason : Option String) (now : Int)
    (w : RideWorld) :
    (cancelRide u reason now w).1 = .ok () ↔
      (w.ride.userId = u.uid ∨ w.ride.driverId = some u.uid ∨
        u.role = "admin") ∧
      ¬ (w.ride.status = .completed ∨ w.ride.status = .cancelled) := by
  unfold cancelRide
  simp only [Bool.or_eq_true, beq_iff_eq]
  split
  · rename_i hcond
    constructor
    · intro h; simp at h
    · rintro ⟨hstand, -⟩
      exact absurd hstand (by tauto)
  · rename_i hcond
    split
    · rename_i hterm
      constructor
      · intro h; simp at h
      · rintro ⟨-, hterm2⟩
        exact absurd hterm hterm2
    · rename_i hterm
      constructor
      · intro _
        exact ⟨by tauto, hterm⟩
      · intro _
        rfl


theorem cancelRide_ok_post (u : AuthUser) (reason : Option String) (now : Int)
    (w : RideWorld) (h : (cancelRide u reason now w).1 = .ok ()) :
    (cancelRide u reason now w).2 =
      { w with
        ride := { w.ride with status := .cancelled,
                              cancelledBy := some (rideCancelledBy u w.ride),
                              cancellationReason :=
                                some (reason.getD "No reason provided"),
                              cancellationFee :=
                                some (cancelFeeFormula w.ride.fare
                                  w.ride.driverId w.ride.acceptedAt now
                                  (rideCancelledBy u w.ride) "passenger"),
                              cancelledAt := some now, updatedAt := now }
        drivers :=
          match w.ride.driverId with
          | some did => updateDriver did
              (fun dd => { dd with currentRideId := none,
                                   isAvailable := true, updatedAt := now })
              w.drivers
          | none => w.drivers
        cancellations := w.cancellations ++
          [{ tripId := w.rideId, cancelledBy := rideCancelledBy u w.ride,
             reason := reason.getD "No reason provided",
             cancellationFee := cancelFeeFormula w.ride.fare w.ride.driverId
               w.ride.acceptedAt now (rideCancelledBy u w.ride) "passenger",
             createdAt := now }] } := by
  rw [cancelRide_ok_iff] at h
  obtain ⟨hstand, hterm⟩ := h
  have h1 : ¬ ¬ ((w.ride.userId == u.uid || w.ride.driverId == some u.uid ||
      u.role == "admin") = true) := by
    simp only [Bool.or_eq_true, beq_iff_eq, not_not]
    tauto
  simp only [cancelRide]
  rw [if_neg h1, if_neg hterm]

theorem acceptRide_terminal (u : AuthUser) (now : Int) (w : RideWorld)
    (d : Driver) (hrole : u.role = "driver")
    (hl : w.drivers.lookup u.uid = some d)
    (hv : d.verificationStatus = "verified")
    (hterm : w.ride.status = .completed ∨ w.ride.status = .cancelled) :
    acceptRide u now w = (.error (.conflict "Ride not available"), w) := by
  have hs : w.ride.status ≠ .requested := by
    rcases hterm with h | h <;> simp [h]
  unfold acceptRide
  simp [hrole, hl, hv, hs]

theorem startRide_terminal (u : AuthUser) (now : Int) (w : RideWorld)
    (hdrv : w.ride.driverId = some u.uid)
    (hterm : w.ride.status = .completed ∨ w.ride.status = .cancelled) :
    startRide u now w = (.error (.conflict "Cannot start ride"), w) := by
  have hs : w.ride.status ≠ .confirmed ∧ w.ride.status ≠ .arriving := by
    rcases hterm with h | h <;> simp [h]
  unfold startRide
  simp [hdrv, hs]

theorem completeRide_terminal (u : AuthUser) (now : Int) (w : RideWorld)
    (hdrv : w.ride.driverId = some u.uid)
    (hterm : w.ride.status = .completed ∨ w.ride.status = .cancelled) :
    completeRide u now w = (.error (.conflict "Cannot complete ride"), w) := by
  have hs : w.ride.status ≠ .in_progress := by
    rcases hterm with h | h <;> simp [h]
  unfold completeRide
  simp [hdrv, hs]

theorem cancelRide_terminal (u : AuthUser) (reason : Option String)
    (now : Int) (w : RideWorld)
    (hstand : w.ride.userId = u.uid ∨ w.ride.driverId = some u.uid ∨
      u.role = "admin")
    (hterm : w.ride.status = .completed ∨ w.ride.status = .cancelled) :
    cancelRide u reason now w = (.error (.conflict "Cannot cancel ride"), w) := by
  have h1 : ¬ ¬ ((w.ride.userId == u.uid || w.ride.driverId == some u.uid ||
      u.role == "admin") = true) := by
    simp only [Bool.or_eq_true, beq_iff_eq, not_not]
    tauto
  simp only [cancelRide]
  rw [if_neg h1, if_pos hterm]

/-! ### Characterisation lemmas for the delivery handlers -/

theorem acceptDelivery_ok_iff (u : AuthUser) (now : Int) (w : DeliveryWorld) :
    (acceptDelivery u now w).1 = .ok () ↔
      u.role = "driver" ∧ ∃ d, w.drivers.lookup u.uid = some d ∧
        d.verificationStatus = "verified" ∧ w.delivery.status = .requested := by
  unfold acceptDelivery
  by_cases hrole : u.role = "driver"
  · simp only [hrole, ne_eq, not_true_eq_false, if_false]
    cases hl : w.drivers.lookup u.uid with
    | none => simp
    | some d =>
      by_cases hv : d.verificationStatus = "verified"
      · by_cases hs : w.delivery.status = .requested
        · simp [hv, hs]
        · simp [hv, hs]
      · simp [hv]
  · simp [hrole]

theorem acceptDelivery_ok_post (u : AuthUser) (now : Int) (w : DeliveryWorld)
    (h : (acceptDelivery u now w).1 = .ok ()) :
    (acceptDelivery u now w).2 =
      { w with delivery := acceptDeliveryUpdate u.uid now w.delivery,
               drivers := updateDriver u.uid
                 (fun dd => { dd with currentDeliveryId := some w.deliveryId,
                                      isAvailable := false, updatedAt := now })
                 w.drivers } := by
  rw [acceptDelivery_ok_iff] at h
  obtain ⟨hrole, d, hl, hv, hs⟩ := h
  unfold acceptDelivery
  simp [hrole, hl, hv, hs]

theorem pickupDelivery_ok_iff (u : AuthUser) (now : Int) (w : DeliveryWorld) :
    (pickupDelivery u now w).1 = .ok () ↔
      w.delivery.driverId = some u.uid ∧ w.delivery.status = .confirmed := by
  unfold pickupDelivery
  split_ifs with h1 h2 <;> simp_all

theorem pickupDelivery_ok_post (u : AuthUser) (now : Int) (w : DeliveryWorld)
    (h : (pickupDelivery u now w).1 = .ok ()) :
    (pickupDelivery u now w).2 =
      { w with delivery := { w.delivery with status := .picked_up,
                                             pickedUpAt := some now,
                                             updatedAt := now } } := by
  rw [pickupDelivery_ok_iff] at h
  obtain ⟨h1, h2⟩ := h
  unfold pickupDelivery
  simp [h1, h2]

theorem completeDelivery_ok_iff (u : AuthUser) (proof : Option String)
    (now : Int) (w : DeliveryWorld) :
    (completeDelivery u proof now w).1 = .ok () ↔
      w.delivery.driverId = some u.uid ∧
        (w.delivery.status = .picked_up ∨ w.delivery.status = .in_transit) := by
  unfold completeDelivery
  split_ifs with h1 h2 <;> simp_all
  tauto

theorem completeDelivery_ok_post (u : AuthUser) (proof : Option String)
    (now : Int) (w : DeliveryWorld)
    (h : (completeDelivery u proof now w).1 = .ok ()) :
    (completeDelivery u proof now w).2 =
      { w with
        delivery := { w.delivery with status := .completed,
                                      completedAt := some now,
                                      proofPhotoUrl := proof,
                                      updatedAt := now }
        drivers := updateDriver u.uid
          (fun dd => { dd with currentDeliveryId := none,
                               isAvailable := true, updatedAt := now })
          w.drivers
        payments := w.payments ++
          [{ rideId := none, deliveryId := some w.deliveryId,
             amount := w.delivery.fare, status := "pending",
             createdAt := now }] } := by
  rw [completeDelivery_ok_iff] at h
  obtain ⟨h1, h2⟩ := h
  unfold completeDelivery
  rcases h2 with h2 | h2 <;> simp [h1, h2]

theorem cancelDelivery_ok_iff (u : AuthUser) (reason : Option String)
    (now : Int) (w : DeliveryWorld) :
    (cancelDelivery u reason now w).1 = .ok () ↔
      (w.delivery.senderId = u.uid ∨ w.delivery.driverId = some u.uid ∨
        u.role = "admin") ∧
      ¬ (w.delivery.status = .completed ∨ w.delivery.status = .cancelled) := by
  unfold cancelDelivery
  simp only [Bool.or_eq_true, beq_iff_eq]
  split
  · rename_i hcond
    constructor
    · intro h; simp at h
    · rintro ⟨hstand, -⟩
      exact absurd hstand (by tauto)
  · rename_i hcond
    split
    · rename_i hterm
      constructor
      · intro h; simp at h
      · rintro ⟨-, hterm2⟩
        exact absurd hterm hterm2
    · rename_i hterm
      constructor
      · intro _
        exact ⟨by tauto, hterm⟩
      · intro _
        rfl

theorem cancelDelivery_ok_post (u : AuthUser) (reason : Option String)
    (now : Int) (w : DeliveryWorld)
    (h : (cancelDelivery u reason now w).1 = .ok ()) :
    (cancelDelivery u reason now w).2 =
      { w with
        delivery := { w.delivery with
                      status := .cancelled,
                      cancelledBy := some (deliveryCancelledBy u w.delivery),
                      cancellationReason :=
                        some (reason.getD "No reason provided"),
                      cancellationFee :=
                        some (cancelFeeFormula w.delivery.fare
                          w.delivery.driverId w.delivery.acceptedAt now
                          (deliveryCancelledBy u w.delivery) "sender"),
                      cancelledAt := some now, updatedAt := now }
        drivers :=
          match w.delivery.driverId with
          | some did => updateDriver did
              (fun dd => { dd with currentDeliveryId := none,
                                   isAvailable := true, updatedAt := now })
              w.drivers
          | none => w.drivers
        cancellations := w.cancellations ++
          [{ tripId := w.deliveryId,
             cancelledBy := deliveryCancelledBy u w.delivery,
             reason := reason.getD "No reason provided",
             cancellationFee := cancelFeeFormula w.delivery.fare
               w.delivery.driverId w.delivery.acceptedAt now
               (deliveryCancelledBy u w.delivery) "sender",
             createdAt := now }] } := by
  rw [cancelDelivery_ok_iff] at h
  obtain ⟨hstand, hterm⟩ := h
  have h1 : ¬ ¬ ((w.delivery.senderId == u.uid ||
      w.delivery.driverId == some u.uid || u.role == "admin") = true) := by
    simp only [Bool.or_eq_true, beq_iff_eq, not_not]
    tauto
  simp only [cancelDelivery]
  rw [if_neg h1, if_neg hterm]

theorem acceptDelivery_terminal (u : AuthUser) (now : Int) (w : DeliveryWorld)
    (d : Driver) (hrole : u.role = "driver")
    (hl : w.drivers.lookup u.uid = some d)
    (hv : d.verificationStatus = "verified")
    (hterm : w.delivery.status = .completed ∨ w.delivery.status = .cancelled) :
    acceptDelivery u now w = (.error (.conflict "Delivery not available"), w) := by
  have hs : w.delivery.status ≠ .requested := by
    rcases hterm with h | h <;> simp [h]
  unfold acceptDelivery
  simp [hrole, hl, hv, hs]

theorem pickupDelivery_terminal (u : AuthUser) (now : Int) (w : DeliveryWorld)
    (hdrv : w.delivery.driverId = some u.uid)
    (hterm : w.delivery.status = .completed ∨ w.delivery.status = .cancelled) :
    pickupDelivery u now w = (.error (.conflict "Cannot confirm pickup"), w) := by
  have hs : w.delivery.status ≠ .confirmed := by
    rcases hterm with h | h <;> simp [h]
  unfold pickupDelivery
  simp [hdrv, hs]

theorem completeDelivery_terminal (u : AuthUser) (proof : Option String)
    (now : Int) (w : DeliveryWorld)
    (hdrv : w.delivery.driverId = some u.uid)
    (hterm : w.delivery.status = .completed ∨ w.delivery.status = .cancelled) :
    completeDelivery u proof now w =
      (.error (.conflict "Cannot complete delivery"), w) := by
  have hs : w.delivery.status ≠ .picked_up ∧ w.delivery.status ≠ .in_transit := by
    rcases hterm with h | h <;> simp [h]
  unfold completeDelivery
  simp [hdrv, hs]

theorem cancelDelivery_terminal (u : AuthUser) (reason : Option String)
    (now : Int) (w : DeliveryWorld)
    (hstand : w.delivery.senderId = u.uid ∨ w.delivery.driverId = some u.uid ∨
      u.role = "admin")
    (hterm : w.delivery.status = .completed ∨ w.delivery.status = .cancelled) :
    cancelDelivery u reason now w =
      (.error (.conflict "Cannot cancel delivery"), w) := by
  have h1 : ¬ ¬ ((w.delivery.senderId == u.uid ||
      w.delivery.driverId == some u.uid || u.role == "admin") = true) := by
    simp only [Bool.or_eq_true, beq_iff_eq, not_not]
    tauto
  simp only [cancelDelivery]
  rw [if_neg h1, if_pos hterm]

/-- A completed ride (terminal). -/
def completedRide : Ride :=
  { baseRide with status := .completed, driverId := some "d1",
                  acceptedAt := some 0, startedAt := some 1,
                  completedAt := some 2 }

/-- A ride world holding a completed ride. -/
def completedWorld : RideWorld :=
  { rideId := "r1", ride := completedRide, drivers := [("d1", busyDriver)],
    payments := [], cancellations := [] }

/-- A cancelled delivery (terminal). -/
def cancelledDelivery : Delivery :=
  { baseDelivery with status := .cancelled, cancelledAt := some 3,
                      cancelledBy := some "sender" }

/-- A delivery world holding a cancelled delivery. -/
def cancelledDeliveryWorld : DeliveryWorld :=
  { deliveryId := "dv1", delivery := cancelledDelivery,
    drivers := [("d1", busyDriver)], payments := [], cancellations := [] }

/-- C7: once a trip is `completed` or `cancelled`, every accept, advance
(start/pickup), complete and cancel call by a caller that passes the
handler's standing checks fails with the handler's conflict response, and
the returned store is the input store — no field of any record is written
on the failing path. -/
theorem claim7_terminal_state_frozen :
    (∀ (u : AuthUser) (now : Int) (w : RideWorld) (d : Driver)
        (reason : Option String),
      (w.ride.status = .completed ∨ w.ride.status = .cancelled) →
      ((u.role = "driver" → w.drivers.lookup u.uid = some d →
          d.verificationStatus = "verified" →
          acceptRide u now w = (.error (.conflict "Ride not available"), w)) ∧
       (w.ride.driverId = some u.uid →
          startRide u now w = (.error (.conflict "Cannot start ride"), w)) ∧
       (w.ride.driverId = some u.uid →
          completeRide u now w =
            (.error (.conflict "Cannot complete ride"), w)) ∧
       ((w.ride.userId = u.uid ∨ w.ride.driverId = some u.uid ∨
           u.role = "admin") →
          cancelRide u reason now w =
            (.error (.conflict "Cannot cancel ride"), w)))) ∧
    (∀ (u : AuthUser) (now : Int) (w : DeliveryWorld) (d : Driver)
        (proof reason : Option String),
      (w.delivery.status = .completed ∨ w.delivery.status = .cancelled) →
      ((u.role = "driver" → w.drivers.lookup u.uid = some d →
          d.verificationStatus = "verified" →
          acceptDelivery u now w =
            (.error (.conflict "Delivery not available"), w)) ∧
       (w.delivery.driverId = some u.uid →
          pickupDelivery u now w =
            (.error (.conflict "Cannot confirm pickup"), w)) ∧
       (w.delivery.driverId = some u.uid →
          completeDelivery u proof now w =
            (.error (.conflict "Cannot complete delivery"), w)) ∧
       ((w.delivery.senderId = u.uid ∨ w.delivery.driverId = some u.uid ∨
           u.role = "admin") →
          cancelDelivery u reason now w =
            (.error (.conflict "Cannot cancel delivery"), w)))) := by
  constructor
  · intro u now w d reason hterm
    exact ⟨fun hrole hl hv => acceptRide_terminal u now w d hrole hl hv hterm,
           fun hdrv => startRide_terminal u now w hdrv hterm,
           fun hdrv => completeRide_terminal u now w hdrv hterm,
           fun hstand => cancelRide_terminal u reason now w hstand hterm⟩
  · intro u now w d proof reason hterm
    exact ⟨fun hrole hl hv =>
             acceptDelivery_terminal u now w d hrole hl hv hterm,
           fun hdrv => pickupDelivery_terminal u now w hdrv hterm,
           fun hdrv => completeDelivery_terminal u proof now w hdrv hterm,
           fun hstand => cancelDelivery_terminal u reason now w hstand hterm⟩

/-- Witness for C7 on a concrete completed ride and a concrete cancelled
delivery. -/
theorem claim7_terminal_state_frozen_witness :
    acceptRide ⟨"d1", "driver"⟩ 9 completedWorld =
      (.error (.conflict "Ride not available"), completedWorld) ∧
    startRide ⟨"d1", "driver"⟩ 9 completedWorld =
      (.error (.conflict "Cannot start ride"), completedWorld) ∧
    completeRide ⟨"d1", "driver"⟩ 9 completedWorld =
      (.error (.conflict "Cannot complete ride"), completedWorld) ∧
    cancelRide ⟨"user1", "user"⟩ none 9 completedWorld =
      (.error (.conflict "Cannot cancel ride"), completedWorld) ∧
    acceptDelivery ⟨"d1", "driver"⟩ 9 cancelledDeliveryWorld =
      (.error (.conflict "Delivery not available"), cancelledDeliveryWorld) ∧
    cancelDelivery ⟨"user1", "user"⟩ none 9 cancelledDeliveryWorld =
      (.error (.conflict "Cannot cancel delivery"), cancelledDeliveryWorld) :=
  ⟨(claim7_terminal_state_frozen.1 ⟨"d1", "driver"⟩ 9 completedWorld
      busyDriver none (Or.inl rfl)).1 rfl rfl rfl,
   (claim7_terminal_state_frozen.1 ⟨"d1", "driver"⟩ 9 completedWorld
      busyDriver none (Or.inl rfl)).2.1 rfl,
   (claim7_terminal_state_frozen.1 ⟨"d1", "driver"⟩ 9 completedWorld
      busyDriver none (Or.inl rfl)).2.2.1 rfl,
   (claim7_terminal_state_frozen.1 ⟨"user1", "user"⟩ 9 completedWorld
      busyDriver none (Or.inl rfl)).2.2.2 (Or.inl rfl),
   (claim7_terminal_state_frozen.2 ⟨"d1", "driver"⟩ 9 cancelledDeliveryWorld
      busyDriver none none (Or.inr rfl)).1 rfl rfl rfl,
   (claim7_terminal_state_frozen.2 ⟨"user1", "user"⟩ 9 cancelledDeliveryWorld
      busyDriver none none (Or.inr rfl)).2.2.2 (Or.inl rfl)⟩

/-- Modelled from the spec (§4.2 fee policy / P4), for comparison with the
code's fee computation: fee is 10% of the quoted fare exactly when a
driver had been assigned, strictly more than 2 minutes (120000 ms) have
elapsed since acceptance, and the cancelling party is the requester;
otherwise 0. -/
def specCancellationFee (driverAssigned : Bool) (elapsedMs : Int)
    (byRequester : Bool) (fare : ℚ) : ℚ :=
  if driverAssigned = true ∧ 2 * 60 * 1000 < elapsedMs ∧ byRequester = true
  then fare / 10 else 0

theorem cancelFee_div_iff (now t : Int) :
    ((2 : ℚ) < ((now : ℚ) - (t : ℚ)) / (1000 * 60)) ↔
      (2 * 60 * 1000 < now - t) := by
  rw [lt_div_iff₀ (by norm_num : (0 : ℚ) < 1000 * 60)]
  constructor
  · intro h
    have h2 : ((2 * 60 * 1000 : Int) : ℚ) < ((now - t : Int) : ℚ) := by
      push_cast
      linarith
    exact_mod_cast h2
  · intro h
    have h2 : ((2 * 60 * 1000 : Int) : ℚ) < ((now - t : Int) : ℚ) := by
      exact_mod_cast h
    push_cast at h2
    linarith

theorem rideCancelledBy_passenger_iff (u : AuthUser) (r : Ride) :
    rideCancelledBy u r = "passenger" ↔ r.userId = u.uid := by
  unfold rideCancelledBy
  by_cases h1 : r.userId = u.uid
  · simp [h1]
  · by_cases h2 : r.driverId = some u.uid <;> simp [h1, h2]

theorem deliveryCancelledBy_sender_iff (u : AuthUser) (d : Delivery) :
    deliveryCancelledBy u d = "sender" ↔ d.senderId = u.uid := by
  unfold deliveryCancelledBy
  by_cases h1 : d.senderId = u.uid
  · simp [h1]
  · by_cases h2 : d.driverId = some u.uid <;> simp [h1, h2]

theorem cancelFeeFormula_ride_spec (u : AuthUser) (r : Ride) (now : Int) :
    cancelFeeFormula r.fare r.driverId r.acceptedAt now
        (rideCancelledBy u r) "passenger" =
      specCancellationFee r.driverId.isSome (now - r.acceptedAt.getD now)
        (r.userId == u.uid) r.fare := by
  unfold cancelFeeFormula specCancellationFee
  cases hd : r.driverId with
  | none =>
    cases r.acceptedAt <;> simp
  | some did =>
    cases ha : r.acceptedAt with
    | none => simp
    | some t =>
      simp only [Option.isSome_some, Option.getD_some, eq_self_iff_true,
        true_and, beq_iff_eq, gt_iff_lt]
      rw [show r.fare * (1 / 10) = r.fare / 10 by ring]
      refine if_congr ?_ rfl rfl
      rw [cancelFee_div_iff, rideCancelledBy_passenger_iff]

theorem cancelFeeFormula_delivery_spec (u : AuthUser) (d : Delivery)
    (now : Int) :
    cancelFeeFormula d.fare d.driverId d.acceptedAt now
        (deliveryCancelledBy u d) "sender" =
      specCancellationFee d.driverId.isSome (now - d.acceptedAt.getD now)
        (d.senderId == u.uid) d.fare := by
  unfold cancelFeeFormula specCancellationFee
  cases hd : d.driverId with
  | none =>
    cases d.acceptedAt <;> simp
  | some did =>
    cases ha : d.acceptedAt with
    | none => simp
    | some t =>
      simp only [Option.isSome_some, Option.getD_some, eq_self_iff_true,
        true_and, beq_iff_eq, gt_iff_lt]
      rw [show d.fare * (1 / 10) = d.fare / 10 by ring]
      refine if_congr ?_ rfl rfl
      rw [cancelFee_div_iff, deliveryCancelledBy_sender_iff]

/-- C2: on every successful cancellation (ride or delivery), the recorded
`cancellationFee` equals the spec's fee policy evaluated at the trip's
data: 10% of the quoted fare exactly when a driver had been assigned, more
than 2 minutes elapsed since `acceptedAt`, and the canceller is the
requester (passenger resp. sender); in every other case — driver- or
admin-initiated cancellations at any time, or no driver ever assigned —
the recorded fee is 0. -/
theorem claim2_cancellation_fee_policy (u : AuthUser)
    (reason : Option String) (now : Int) (w : RideWorld)
    (wd : DeliveryWorld)
    (hok : (cancelRide u reason now w).1 = .ok ())
    (hokd : (cancelDelivery u reason now wd).1 = .ok ()) :
    (cancelRide u reason now w).2.ride.cancellationFee =
      some (specCancellationFee w.ride.driverId.isSome
        (now - w.ride.acceptedAt.getD now) (w.ride.userId == u.uid)
        w.ride.fare) ∧
    (cancelDelivery u reason now wd).2.delivery.cancellationFee =
      some (specCancellationFee wd.delivery.driverId.isSome
        (now - wd.delivery.acceptedAt.getD now)
        (wd.delivery.senderId == u.uid) wd.delivery.fare) := by
  rw [cancelRide_ok_post u reason now w hok,
      cancelDelivery_ok_post u reason now wd hokd]
  exact ⟨congrArg some (cancelFeeFormula_ride_spec u w.ride now),
         congrArg some (cancelFeeFormula_delivery_spec u wd.delivery now)⟩

/-- A delivery already accepted by driver `d1`. -/
def confirmedDelivery : Delivery :=
  { baseDelivery with status := .confirmed, driverId := some "d1",
                      acceptedAt := some 0 }

/-- A delivery world holding a confirmed delivery assigned to `d1`. -/
def confirmedDeliveryWorld : DeliveryWorld :=
  { deliveryId := "dv1", delivery := confirmedDelivery,
    drivers := [("d1", busyDriver)], payments := [], cancellations := [] }

/-- Witness for C2: the requester cancels 5 minutes (300000 ms) after
acceptance, so the recorded fee is 10% of the quoted fare (164 → 16.4 and
80 → 8); and the same cancellation one minute in, or by the driver at any
time, yields fee 0. -/
theorem claim2_cancellation_fee_policy_witness :
    (cancelRide ⟨"user1", "user"⟩ none 300000 confirmedWorld).1 = .ok () ∧
    (cancelDelivery ⟨"user1", "user"⟩ none 300000
      confirmedDeliveryWorld).1 = .ok () ∧
    ((cancelRide ⟨"user1", "user"⟩ none 300000
        confirmedWorld).2.ride.cancellationFee = some ((164 : ℚ) / 10) ∧
     (cancelDelivery ⟨"user1", "user"⟩ none 300000
        confirmedDeliveryWorld).2.delivery.cancellationFee =
       some ((80 : ℚ) / 10)) ∧
    specCancellationFee true 60000 true 164 = 0 ∧
    specCancellationFee true 600000 false 164 = 0 ∧
    specCancellationFee false 600000 true 164 = 0 :=
  ⟨by decide, by decide,
   claim2_cancellation_fee_policy ⟨"user1", "user"⟩ none 300000
     confirmedWorld confirmedDeliveryWorld (by decide) (by decide),
   by norm_num [specCancellationFee],
   by norm_num [specCancellationFee],
   by norm_num [specCancellationFee]⟩

/-- C3 (amended): an accept call succeeds **iff** the caller's role is
`driver`, the caller's driver document exists with
`verificationStatus = "verified"`, and the trip's status is still
`requested`.  The handler consults neither `isOnline`, `isAvailable` nor
the current-trip field, so — contrary to the original claim — a driver
already holding an active trip can accept another one (see the
counterexample theorem). -/
theorem claim3_accept_checks_role_verification_status_only :
    ∀ (u : AuthUser) (now : Int) (w : RideWorld) (wd : DeliveryWorld),
      ((acceptRide u now w).1 = .ok () ↔
        u.role = "driver" ∧ ∃ d, w.drivers.lookup u.uid = some d ∧
          d.verificationStatus = "verified" ∧ w.ride.status = .requested) ∧
      ((acceptDelivery u now wd).1 = .ok () ↔
        u.role = "driver" ∧ ∃ d, wd.drivers.lookup u.uid = some d ∧
          d.verificationStatus = "verified" ∧
          wd.delivery.status = .requested) :=
  fun u now w wd =>
    ⟨acceptRide_ok_iff u now w, acceptDelivery_ok_iff u now wd⟩

/-- C4 (amended): every status change a handler commits is one of the
code's transitions — accept: `requested → confirmed`; ride start:
`confirmed`/`arriving` → `in_progress`; delivery pickup:
`confirmed → picked_up`; complete: `in_progress → completed`
(resp. `picked_up`/`in_transit` → `completed`); cancel: any non-terminal
status → `cancelled` — and each of these strictly increases the forward
rank, so no operation ever moves a status backward.  (The spec's
intermediate states `driver_assigned`, `arriving` and `in_transit` are
never produced, so the code's paths skip them; see the counterexample.) -/
theorem claim4_transitions_forward_only :
    (∀ (u : AuthUser) (now : Int) (w : RideWorld),
      (acceptRide u now w).1 = .ok () →
      codeRideEdge w.ride.status
        ((acceptRide u now w).2.ride.status) = true) ∧
    (∀ (u : AuthUser) (now : Int) (w : RideWorld),
      (startRide u now w).1 = .ok () →
      codeRideEdge w.ride.status
        ((startRide u now w).2.ride.status) = true) ∧
    (∀ (u : AuthUser) (now : Int) (w : RideWorld),
      (completeRide u now w).1 = .ok () →
      codeRideEdge w.ride.status
        ((completeRide u now w).2.ride.status) = true) ∧
    (∀ (u : AuthUser) (reason : Option String) (now : Int) (w : RideWorld),
      (cancelRide u reason now w).1 = .ok () →
      codeRideEdge w.ride.status
        ((cancelRide u reason now w).2.ride.status) = true) ∧
    (∀ (u : AuthUser) (now : Int) (w : DeliveryWorld),
      (acceptDelivery u now w).1 = .ok () →
      codeDeliveryEdge w.delivery.status
        ((acceptDelivery u now w).2.delivery.status) = true) ∧
    (∀ (u : AuthUser) (now : Int) (w : DeliveryWorld),
      (pickupDelivery u now w).1 = .ok () →
      codeDeliveryEdge w.delivery.status
        ((pickupDelivery u now w).2.delivery.status) = true) ∧
    (∀ (u : AuthUser) (proof : Option String) (now : Int)
        (w : DeliveryWorld),
      (completeDelivery u proof now w).1 = .ok () →
      codeDeliveryEdge w.delivery.status
        ((completeDelivery u proof now w).2.delivery.status) = true) ∧
    (∀ (u : AuthUser) (reason : Option String) (now : Int)
        (w : DeliveryWorld),
      (cancelDelivery u reason now w).1 = .ok () →
      codeDeliveryEdge w.delivery.status
        ((cancelDelivery u reason now w).2.delivery.status) = true) ∧
    (∀ s t, codeRideEdge s t = true → statusRank s < statusRank t) ∧
    (∀ s t, codeDeliveryEdge s t = true → statusRank s < statusRank t) := by
  refine ⟨?_, ?_, ?_, ?_, ?_, ?_, ?_, ?_, by decide, by decide⟩
  · intro u now w h
    obtain ⟨-, d, -, -, hs⟩ := (acceptRide_ok_iff u now w).mp h
    rw [acceptRide_ok_post u now w h, hs]
    simp [acceptRideUpdate, codeRideEdge]
  · intro u now w h
    obtain ⟨-, hs⟩ := (startRide_ok_iff u now w).mp h
    rw [startRide_ok_post u now w h]
    rcases hs with hs | hs <;> rw [hs] <;> simp [codeRideEdge]
  · intro u now w h
    obtain ⟨-, hs⟩ := (completeRide_ok_iff u now w).mp h
    rw [completeRide_ok_post u now w h, hs]
    simp [codeRideEdge]
  · intro u reason now w h
    obtain ⟨-, hterm⟩ := (cancelRide_ok_iff u reason now w).mp h
    rw [cancelRide_ok_post u reason now w h]
    cases hst : w.ride.status <;> simp_all [codeRideEdge]
  · intro u now w h
    obtain ⟨-, d, -, -, hs⟩ := (acceptDelivery_ok_iff u now w).mp h
    rw [acceptDelivery_ok_post u now w h, hs]
    simp [acceptDeliveryUpdate, codeDeliveryEdge]
  · intro u now w h
    obtain ⟨-, hs⟩ := (pickupDelivery_ok_iff u now w).mp h
    rw [pickupDelivery_ok_post u now w h, hs]
    simp [codeDeliveryEdge]
  · intro u proof now w h
    obtain ⟨-, hs⟩ := (completeDelivery_ok_iff u proof now w).mp h
    rw [completeDelivery_ok_post u proof now w h]
    rcases hs with hs | hs <;> rw [hs] <;> simp [codeDeliveryEdge]
  · intro u reason now w h
    obtain ⟨-, hterm⟩ := (cancelDelivery_ok_iff u reason now w).mp h
    rw [cancelDelivery_ok_post u reason now w h]
    cases hst : w.delivery.status <;> simp_all [codeDeliveryEdge]

/-- Witness for C4: the concrete start call on a confirmed ride succeeds,
its transition is a code edge, and that edge moves the rank strictly
forward. -/
theorem claim4_transitions_forward_only_witness :
    (startRide ⟨"d1", "driver"⟩ 5 confirmedWorld).1 = .ok () ∧
    codeRideEdge confirmedWorld.ride.status
      ((startRide ⟨"d1", "driver"⟩ 5 confirmedWorld).2.ride.status) = true ∧
    statusRank .confirmed < statusRank .in_progress :=
  ⟨by decide,
   claim4_transitions_forward_only.2.1 ⟨"d1", "driver"⟩ 5 confirmedWorld
     (by decide),
   claim4_transitions_forward_only.2.2.2.2.2.2.2.2.1 .confirmed .in_progress
     (by decide)⟩

theorem lookup_updateDriver (uid : String) (f : Driver → Driver)
    (ds : List (String × Driver)) :
    (updateDriver uid f ds).lookup uid = (ds.lookup uid).map f := by
  induction ds with
  | nil => rfl
  | cons p ds ih =>
    obtain ⟨a, b⟩ := p
    simp only [updateDriver, List.map_cons] at ih ⊢
    by_cases h : a = uid
    · subst h
      rw [if_pos rfl]
      simp [List.lookup]
    · have hne : (uid == a) = false := by simp [Ne.symm h]
      rw [if_neg h]
      simp [List.lookup, hne, ih]

/-- C5: every successful complete call by the assigned driver marks the
trip `completed` with `completedAt` stamped, flips the caller's driver
document back to available with the current-trip field cleared, and
appends exactly one payment record whose amount is the trip's quoted fare
and whose status is `pending`. -/
theorem claim5_complete_effects (u : AuthUser) (now : Int) (w : RideWorld)
    (proof : Option String) (wd : DeliveryWorld) (d0 e0 : Driver)
    (hok : (completeRide u now w).1 = .ok ())
    (hld : w.drivers.lookup u.uid = some d0)
    (hokd : (completeDelivery u proof now wd).1 = .ok ())
    (hle : wd.drivers.lookup u.uid = some e0) :
    ((completeRide u now w).2.ride.status = .completed ∧
     (completeRide u now w).2.ride.completedAt = some now ∧
     (completeRide u now w).2.drivers.lookup u.uid =
       some { d0 with currentRideId := none, isAvailable := true,
                      updatedAt := now } ∧
     (completeRide u now w).2.payments =
       w.payments ++ [{ rideId := some w.rideId, deliveryId := none,
                        amount := w.ride.fare, status := "pending",
                        createdAt := now }]) ∧
    ((completeDelivery u proof now wd).2.delivery.status = .completed ∧
     (completeDelivery u proof now wd).2.delivery.completedAt = some now ∧
     (completeDelivery u proof now wd).2.drivers.lookup u.uid =
       some { e0 with currentDeliveryId := none, isAvailable := true,
                      updatedAt := now } ∧
     (completeDelivery u proof now wd).2.payments =
       wd.payments ++ [{ rideId := none, deliveryId := some wd.deliveryId,
                         amount := wd.delivery.fare, status := "pending",
                         createdAt := now }]) := by
  rw [completeRide_ok_post u now w hok,
      completeDelivery_ok_post u proof now wd hokd]
  refine ⟨⟨rfl, rfl, ?_, rfl⟩, ⟨rfl, rfl, ?_, rfl⟩⟩
  · rw [lookup_updateDriver, hld]
    rfl
  · rw [lookup_updateDriver, hle]
    rfl

/-- A ride in progress, assigned to `d1`. -/
def inProgressWorld : RideWorld :=
  { rideId := "r1",
    ride := { baseRide with status := .in_progress, driverId := some "d1",
                            acceptedAt := some 0, startedAt := some 1 }
    drivers := [("d1", busyDriver)], payments := [], cancellations := [] }

/-- A picked-up delivery, assigned to `d1`. -/
def pickedUpDeliveryWorld : DeliveryWorld :=
  { deliveryId := "dv1",
    delivery := { baseDelivery with status := .picked_up,
                                    driverId := some "d1",
                                    acceptedAt := some 0,
                                    pickedUpAt := some 1 }
    drivers := [("d1", busyDriver)], payments := [], cancellations := [] }

/-- Witness for C5 on a concrete in-progress ride (fare 164) and a
concrete picked-up delivery (fare 80) completed by the assigned driver. -/
theorem claim5_complete_effects_witness :
    (completeRide ⟨"d1", "driver"⟩ 7 inProgressWorld).1 = .ok () ∧
    (completeDelivery ⟨"d1", "driver"⟩ none 7 pickedUpDeliveryWorld).1 =
      .ok () ∧
    (((completeRide ⟨"d1", "driver"⟩ 7 inProgressWorld).2.ride.status =
        .completed ∧
      (completeRide ⟨"d1", "driver"⟩ 7
        inProgressWorld).2.ride.completedAt = some 7 ∧
      (completeRide ⟨"d1", "driver"⟩ 7
          inProgressWorld).2.drivers.lookup "d1" =
        some { busyDriver with currentRideId := none, isAvailable := true,
                               updatedAt := 7 } ∧
      (completeRide ⟨"d1", "driver"⟩ 7 inProgressWorld).2.payments =
        inProgressWorld.payments ++
          [{ rideId := some "r1", deliveryId := none, amount := 164,
             status := "pending", createdAt := 7 }]) ∧
     ((completeDelivery ⟨"d1", "driver"⟩ none 7
          pickedUpDeliveryWorld).2.delivery.status = .completed ∧
      (completeDelivery ⟨"d1", "driver"⟩ none 7
          pickedUpDeliveryWorld).2.delivery.completedAt = some 7 ∧
      (completeDelivery ⟨"d1", "driver"⟩ none 7
          pickedUpDeliveryWorld).2.drivers.lookup "d1" =
        some { busyDriver with currentDeliveryId := none,
                               isAvailable := true, updatedAt := 7 } ∧
      (completeDelivery ⟨"d1", "driver"⟩ none 7
          pickedUpDeliveryWorld).2.payments =
        pickedUpDeliveryWorld.payments ++
          [{ rideId := none, deliveryId := some "dv1", amount := 80,
             status := "pending", createdAt := 7 }])) :=
  ⟨by decide, by decide,
   claim5_complete_effects ⟨"d1", "driver"⟩ 7 inProgressWorld none
     pickedUpDeliveryWorld busyDriver busyDriver (by decide) (by decide)
     (by decide) (by decide)⟩

theorem sorted_nearbyScan (dist : Location → Location → ℚ) (q : Location)
    (r : ℚ) (cands : List (String × Driver)) :
    List.Sorted ndLE (nearbyScan dist q r cands) :=
  List.sorted_insertionSort ndLE _

theorem mem_nearbyScan (dist : Location → Location → ℚ) (q : Location)
    (r : ℚ) (cands : List (String × Driver)) (nd : NearbyDriver) :
    nd ∈ nearbyScan dist q r cands ↔
      ∃ p ∈ cands, ∃ loc, p.2.currentLocation = some loc ∧
        dist q loc ≤ r ∧ nd = ⟨p.1, round2 (dist q loc)⟩ := by
  unfold nearbyScan
  rw [List.mem_insertionSort, List.mem_filterMap]
  constructor
  · rintro ⟨p, hp, hf⟩
    refine ⟨p, hp, ?_⟩
    cases hloc : p.2.currentLocation with
    | none => simp [hloc] at hf
    | some loc =>
      simp only [hloc] at hf
      by_cases hd : dist q loc ≤ r
      · simp only [if_pos hd, Option.some.injEq] at hf
        exact ⟨loc, rfl, hd, hf.symm⟩
      · simp [if_neg hd] at hf
  · rintro ⟨p, hp, loc, hloc, hd, hnd⟩
    exact ⟨p, hp, by simp [hloc, hd, hnd]⟩

/-- C6 (amended): `GET /api/drivers/nearby` returns exactly the online,
**available**, verified drivers (matching the vehicle-type filter when one
is given) that have a recorded location within the radius (default 5 km),
each at its two-decimal-rounded distance, sorted ascending by distance;
`GET /api/rides/nearby` returns the same set except that it does **not**
filter on availability — only online and verified are required, so busy
drivers appear (see the counterexample). -/
theorem claim6_nearby_exact_and_sorted :
    (∀ (dist : Location → Location → ℚ) (lat lng : ℚ) (radius : Option ℚ)
        (vt : Option String) (drivers : List (String × Driver))
        (l : List NearbyDriver),
      driversNearby dist (some lat) (some lng) radius vt drivers = .ok l →
      (∀ nd : NearbyDriver, nd ∈ l ↔
        ∃ d loc, (nd.id, d) ∈ drivers ∧ d.isOnline = true ∧
          d.isAvailable = true ∧ d.verificationStatus = "verified" ∧
          (∀ v, vt = some v → d.vehicleInfo.type = v) ∧
          d.currentLocation = some loc ∧
          dist ⟨lat, lng⟩ loc ≤ radius.getD 5 ∧
          nd.distance = round2 (dist ⟨lat, lng⟩ loc)) ∧
      List.Sorted ndLE l) ∧
    (∀ (dist : Location → Location → ℚ) (lat lng : ℚ) (radius : Option ℚ)
        (drivers : List (String × Driver)) (l : List NearbyDriver),
      ridesNearby dist (some lat) (some lng) radius drivers = .ok l →
      (∀ nd : NearbyDriver, nd ∈ l ↔
        ∃ d loc, (nd.id, d) ∈ drivers ∧ d.isOnline = true ∧
          d.verificationStatus = "verified" ∧
          d.currentLocation = some loc ∧
          dist ⟨lat, lng⟩ loc ≤ radius.getD 5 ∧
          nd.distance = round2 (dist ⟨lat, lng⟩ loc)) ∧
      List.Sorted ndLE l) := by
  constructor
  · intro dist lat lng radius vt drivers l hres
    simp only [driversNearby] at hres
    split at hres
    · simp at hres
    · replace hres := (Except.ok.inj hres).symm
      subst hres
      refine ⟨?_, sorted_nearbyScan dist _ _ _⟩
      intro nd
      rw [mem_nearbyScan]
      constructor
      · rintro ⟨p, hp, loc, hloc, hd, hnd⟩
        rw [List.mem_filter] at hp
        obtain ⟨hmem, hpred⟩ := hp
        simp only [Bool.and_eq_true, beq_iff_eq] at hpred
        obtain ⟨⟨⟨hon, hav⟩, hver⟩, hvt⟩ := hpred
        subst hnd
        refine ⟨p.2, loc, hmem, hon, hav, hver, ?_, hloc, hd, rfl⟩
        intro v hv
        rw [hv] at hvt
        simpa using hvt
      · rintro ⟨d, loc, hmem, hon, hav, hver, hvt, hloc, hd, hdist⟩
        refine ⟨(nd.id, d), ?_, loc, hloc, hd, ?_⟩
        · rw [List.mem_filter]
          refine ⟨hmem, ?_⟩
          simp only [Bool.and_eq_true, beq_iff_eq]
          refine ⟨⟨⟨hon, hav⟩, hver⟩, ?_⟩
          cases vt with
          | none => rfl
          | some v => simpa using hvt v rfl
        · obtain ⟨nid, ndist⟩ := nd
          simp only at hdist
          rw [hdist]
  · intro dist lat lng radius drivers l hres
    simp only [ridesNearby] at hres
    split at hres
    · simp at hres
    · replace hres := (Except.ok.inj hres).symm
      subst hres
      refine ⟨?_, sorted_nearbyScan dist _ _ _⟩
      intro nd
      rw [mem_nearbyScan]
      constructor
      · rintro ⟨p, hp, loc, hloc, hd, hnd⟩
        rw [List.mem_filter] at hp
        obtain ⟨hmem, hpred⟩ := hp
        simp only [Bool.and_eq_true, beq_iff_eq] at hpred
        obtain ⟨hon, hver⟩ := hpred
        subst hnd
        exact ⟨p.2, loc, hmem, hon, hver, hloc, hd, rfl⟩
      · rintro ⟨d, loc, hmem, hon, hver, hloc, hd, hdist⟩
        refine ⟨(nd.id, d), ?_, loc, hloc, hd, ?_⟩
        · rw [List.mem_filter]
          exact ⟨hmem, by simp [hon, hver]⟩
        · obtain ⟨nid, ndist⟩ := nd
          simp only at hdist
          rw [hdist]

/-- Witness for C6 on a concrete query: one free verified driver at the
query point is returned at distance 0, and the result is sorted. -/
theorem claim6_nearby_exact_and_sorted_witness :
    driversNearby dist0 (some 24) (some 92) none none [("d1", freeDriver)] =
      .ok [{ id := "d1", distance := 0 }] ∧
    List.Sorted ndLE [{ id := "d1", distance := 0 }] :=
  have hres : driversNearby dist0 (some 24) (some 92) none none
      [("d1", freeDriver)] = .ok [{ id := "d1", distance := 0 }] := by
    norm_num [driversNearby, nearbyScan, dist0, round2, freeDriver,
      List.filter, List.filterMap, List.insertionSort]
  ⟨hres, (claim6_nearby_exact_and_sorted.1 dist0 24 92 none none
      [("d1", freeDriver)] [{ id := "d1", distance := 0 }] hres).2⟩

theorem nearbyScan_eq_nil (dist : Location → Location → ℚ) (q : Location)
    (r : ℚ) (cands : List (String × Driver))
    (h : ∀ p ∈ cands, ∀ loc, p.2.currentLocation = some loc →
      ¬ dist q loc ≤ r) :
    nearbyScan dist q r cands = [] := by
  unfold nearbyScan
  have h2 : (cands.filterMap (fun p =>
      match p.2.currentLocation with
      | none => none
      | some loc =>
        if dist q loc ≤ r then
          some { id := p.1, distance := round2 (dist q loc) : NearbyDriver }
        else none)) = [] := by
    rw [List.filterMap_eq_nil_iff]
    intro p hp
    cases hloc : p.2.currentLocation with
    | none => simp [hloc]
    | some loc => simp [hloc, h p hp loc hloc]
  rw [h2]
  rfl

/-- C8: (a) a matching query issued without a location fails with a
validation error — missing `latitude`/`longitude` on the nearby queries,
and a driver with no stored `currentLocation` on the pending-jobs query;
(b) a driver with no recorded `currentLocation` never appears in a
nearby-drivers result; (c) when no eligible candidate lies within the
radius each matching query returns an empty list, not an error. -/
theorem claim8_matching_edge_cases :
    (∀ dist (lng radius : Option ℚ) (vt : Option String) drivers,
      driversNearby dist none lng radius vt drivers =
        .error (.validation "Location required")) ∧
    (∀ dist (lat radius : Option ℚ) (vt : Option String) drivers,
      driversNearby dist lat none radius vt drivers =
        .error (.validation "Location required")) ∧
    (∀ dist (lng radius : Option ℚ) drivers,
      ridesNearby dist none lng radius drivers =
        .error (.validation "Location required")) ∧
    (∀ dist (lat radius : Option ℚ) drivers,
      ridesNearby dist lat none radius drivers =
        .error (.validation "Location required")) ∧
    (∀ dist (u : AuthUser) (d : Driver) rides deliveries,
      u.role = "driver" → d.verificationStatus = "verified" →
      d.isOnline = true → d.isAvailable = true →
      d.currentLocation = none →
      pendingJobs dist u (some d) rides deliveries =
        .error (.validation "Location not available")) ∧
    (∀ dist (lat lng : ℚ) (radius : Option ℚ) (vt : Option String) drivers
        (l : List NearbyDriver) (nd : NearbyDriver),
      driversNearby dist (some lat) (some lng) radius vt drivers = .ok l →
      nd ∈ l →
      ∃ d loc, (nd.id, d) ∈ drivers ∧ d.currentLocation = some loc) ∧
    (∀ dist (lat lng : ℚ) (radius : Option ℚ) drivers
        (l : List NearbyDriver) (nd : NearbyDriver),
      ridesNearby dist (some lat) (some lng) radius drivers = .ok l →
      nd ∈ l →
      ∃ d loc, (nd.id, d) ∈ drivers ∧ d.currentLocation = some loc) ∧
    (∀ dist (lat lng : ℚ) (radius : Option ℚ) (vt : Option String) drivers,
      ¬ (lat < -90 ∨ lat > 90 ∨ lng < -180 ∨ lng > 180) →
      (∀ p ∈ drivers, p.2.isOnline = true → p.2.isAvailable = true →
        p.2.verificationStatus = "verified" →
        ∀ loc, p.2.currentLocation = some loc →
        ¬ dist ⟨lat, lng⟩ loc ≤ radius.getD 5) →
      driversNearby dist (some lat) (some lng) radius vt drivers = .ok []) ∧
    (∀ dist (lat lng : ℚ) (radius : Option ℚ) drivers,
      ¬ (lat < -90 ∨ lat > 90 ∨ lng < -180 ∨ lng > 180) →
      (∀ p ∈ drivers, p.2.isOnline = true →
        p.2.verificationStatus = "verified" →
        ∀ loc, p.2.currentLocation = some loc →
        ¬ dist ⟨lat, lng⟩ loc ≤ radius.getD 5) →
      ridesNearby dist (some lat) (some lng) radius drivers = .ok []) ∧
    (∀ dist (u : AuthUser) (d : Driver) (loc : Location) rides deliveries,
      u.role = "driver" → d.verificationStatus = "verified" →
      d.isOnline = true → d.isAvailable = true →
      d.currentLocation = some loc →
      (∀ p ∈ rides, (p : String × Ride).2.status = .requested →
        ¬ dist loc p.2.pickup ≤ 10) →
      (∀ p ∈ deliveries, (p : String × Delivery).2.status = .requested →
        ¬ dist loc p.2.pickup ≤ 10) →
      pendingJobs dist u (some d) rides deliveries = .ok []) := by
  refine ⟨?_, ?_, ?_, ?_, ?_, ?_, ?_, ?_, ?_, ?_⟩
  · intro dist lng radius vt drivers
    cases lng <;> rfl
  · intro dist lat radius vt drivers
    cases lat <;> rfl
  · intro dist lng radius drivers
    cases lng <;> rfl
  · intro dist lat radius drivers
    cases lat <;> rfl
  · intro dist u d rides deliveries hrole hver hon hav hloc
    unfold pendingJobs
    simp [hrole, hver, hon, hav, hloc]
  · intro dist lat lng radius vt drivers l nd hres hmem
    simp only [driversNearby] at hres
    split at hres
    · simp at hres
    · replace hres := (Except.ok.inj hres).symm
      subst hres
      rw [mem_nearbyScan] at hmem
      obtain ⟨p, hp, loc, hloc, hd, hnd⟩ := hmem
      rw [List.mem_filter] at hp
      subst hnd
      exact ⟨p.2, loc, hp.1, hloc⟩
  · intro dist lat lng radius drivers l nd hres hmem
    simp only [ridesNearby] at hres
    split at hres
    · simp at hres
    · replace hres := (Except.ok.inj hres).symm
      subst hres
      rw [mem_nearbyScan] at hmem
      obtain ⟨p, hp, loc, hloc, hd, hnd⟩ := hmem
      rw [List.mem_filter] at hp
      subst hnd
      exact ⟨p.2, loc, hp.1, hloc⟩
  · intro dist lat lng radius vt drivers hrange hbeyond
    simp only [driversNearby]
    rw [if_neg hrange]
    refine congrArg Except.ok (nearbyScan_eq_nil dist _ _ _ ?_)
    intro p hp loc hloc
    rw [List.mem_filter] at hp
    obtain ⟨hmem, hpred⟩ := hp
    simp only [Bool.and_eq_true, beq_iff_eq] at hpred
    obtain ⟨⟨⟨hon, hav⟩, hver⟩, -⟩ := hpred
    exact hbeyond p hmem hon hav hver loc hloc
  · intro dist lat lng radius drivers hrange hbeyond
    simp only [ridesNearby]
    rw [if_neg hrange]
    refine congrArg Except.ok (nearbyScan_eq_nil dist _ _ _ ?_)
    intro p hp loc hloc
    rw [List.mem_filter] at hp
    obtain ⟨hmem, hpred⟩ := hp
    simp only [Bool.and_eq_true, beq_iff_eq] at hpred
    obtain ⟨hon, hver⟩ := hpred
    exact hbeyond p hmem hon hver loc hloc
  · intro dist u d loc rides deliveries hrole hver hon hav hloc hr hd
    unfold pendingJobs
    simp only [hrole, hver, hon, hav, hloc, ne_eq, not_true_eq_false,
      if_false, and_self, not_true_eq_false]
    have h1 : (rides.filterMap (fun p =>
        if p.2.status = .requested ∧ dist loc p.2.pickup ≤ 10 then
          some { id := p.1, type := "ride",
                 distance := round2 (dist loc p.2.pickup) : Job }
        else none)) = [] := by
      rw [List.filterMap_eq_nil_iff]
      intro p hp
      exact if_neg (fun hcon => hr p hp hcon.1 hcon.2)
    have h2 : (deliveries.filterMap (fun p =>
        if p.2.status = .requested ∧ dist loc p.2.pickup ≤ 10 then
          some { id := p.1, type := "delivery",
                 distance := round2 (dist loc p.2.pickup) : Job }
        else none)) = [] := by
      rw [List.filterMap_eq_nil_iff]
      intro p hp
      exact if_neg (fun hcon => hd p hp hcon.1 hcon.2)
    rw [h1, h2]
    rfl

/-- Constant distance 7 km: beyond the default 5 km driver radius but
within the 10 km jobs radius. -/
def dist7 : Location → Location → ℚ := fun _ _ => 7

/-- Constant distance 20 km: beyond every radius the handlers use. -/
def dist20 : Location → Location → ℚ := fun _ _ => 20

/-- A verified, online, available driver with no recorded location. -/
def noLocDriver : Driver :=
  { verificationStatus := "verified", isOnline := true, isAvailable := true,
    currentRideId := none, currentDeliveryId := none,
    currentLocation := none, vehicleInfo := ⟨"car"⟩, updatedAt := 0 }

/-- Witness for C8: a location-less driver querying jobs gets the
validation error; a query whose only candidate is beyond the radius gets
an empty list, for both the nearby-drivers query and the pending-jobs
query. -/
theorem claim8_matching_edge_cases_witness :
    pendingJobs dist0 ⟨"d2", "driver"⟩ (some noLocDriver) [] [] =
      .error (.validation "Location not available") ∧
    driversNearby dist7 (some 24) (some 92) none none
      [("d1", freeDriver)] = .ok [] ∧
    pendingJobs dist20 ⟨"d2", "driver"⟩ (some freeDriver)
      [("r1", baseRide)] [("dv1", baseDelivery)] = .ok [] :=
  ⟨claim8_matching_edge_cases.2.2.2.2.1 dist0 ⟨"d2", "driver"⟩ noLocDriver
     [] [] rfl rfl rfl rfl rfl,
   claim8_matching_edge_cases.2.2.2.2.2.2.2.1 dist7 24 92 none none
     [("d1", freeDriver)] (by norm_num)
     (by intro p hp hon hav hver loc hloc; norm_num [dist7]),
   claim8_matching_edge_cases.2.2.2.2.2.2.2.2.2 dist20 ⟨"d2", "driver"⟩
     freeDriver ⟨24, 92⟩ [("r1", baseRide)] [("dv1", baseDelivery)]
     rfl rfl rfl rfl rfl
     (by intro p hp hreq; norm_num [dist20])
     (by intro p hp hreq; norm_num [dist20])⟩

/-- C9 (amended): trip creation validates coordinates only for
presence/JS-truthiness — it performs **no range check** on latitude or
longitude.  Whenever the other validations pass (known category, positive
fare, valid recipient phone for deliveries, no active trip), creation
succeeds and stores the given coordinates verbatim, whatever their values
(see the counterexample at latitude 200). -/
theorem claim9_create_accepts_out_of_range :
    (∀ (u : AuthUser) (p dst : LocInput) (vt : String) (f : ℚ)
        (notes : Option String) (now : Int),
      (vt = "economy" ∨ vt = "comfort" ∨ vt = "xl") → 0 < f →
      truthyQ p.latitude = true → truthyQ p.longitude = true →
      truthyQ dst.latitude = true → truthyQ dst.longitude = true →
      createRide u (some p) (some dst) (some vt) (some f) notes false now =
        .ok { userId := u.uid, driverId := none,
              pickup := ⟨p.latitude.getD 0, p.longitude.getD 0⟩,
              destination := ⟨dst.latitude.getD 0, dst.longitude.getD 0⟩,
              vehicleType := vt, fare := f, notes := notes.getD "",
              status := .requested, createdAt := now, updatedAt := now,
              acceptedAt := none, startedAt := none, completedAt := none,
              cancelledAt := none, cancelledBy := none,
              cancellationReason := none, cancellationFee := none }) ∧
    (∀ (u : AuthUser) (p dst : LocInput) (pt : String) (f : ℚ)
        (rName rPhone : String) (notes : Option String) (now : Int),
      (pt = "document" ∨ pt = "package" ∨ pt = "food" ∨
        pt = "electronics" ∨ pt = "other") → 0 < f →
      rName ≠ "" → phoneFormatOk rPhone = true →
      truthyQ p.latitude = true → truthyQ p.longitude = true →
      truthyQ dst.latitude = true → truthyQ dst.longitude = true →
      createDelivery u (some p) (some dst) (some pt) (some f) (some rName)
          (some rPhone) notes false now =
        .ok { senderId := u.uid, driverId := none,
              pickup := ⟨p.latitude.getD 0, p.longitude.getD 0⟩,
              destination := ⟨dst.latitude.getD 0, dst.longitude.getD 0⟩,
              packageType := pt, fare := f, notes := notes.getD "",
              status := .requested, proofPhotoUrl := none,
              createdAt := now, updatedAt := now,
              acceptedAt := none, pickedUpAt := none, completedAt := none,
              cancelledAt := none, cancelledBy := none,
              cancellationReason := none, cancellationFee := none }) := by
  constructor
  · intro u p dst vt f notes now hvt hf hp1 hp2 hd1 hd2
    have hvtne : truthyS (some vt) = true := by
      rcases hvt with h | h | h <;> subst h <;> decide
    have hft : truthyQ (some f) = true := by simp [truthyQ, hf.ne']
    simp only [createRide, Option.getD_some]
    rw [if_neg (not_not_intro ⟨hvtne, hft⟩),
        if_neg (not_not_intro ⟨hp1, hp2, hd1, hd2⟩),
        if_neg (not_not_intro hvt), if_neg (not_le.mpr hf),
        if_neg (by simp)]
  · intro u p dst pt f rName rPhone notes now hpt hf hrn hph hp1 hp2 hd1 hd2
    have hptne : truthyS (some pt) = true := by
      rcases hpt with h | h | h | h | h <;> subst h <;> decide
    have hft : truthyQ (some f) = true := by simp [truthyQ, hf.ne']
    have hrnt : truthyS (some rName) = true := by simp [truthyS, hrn]
    have hrpne : rPhone ≠ "" := by
      intro h
      rw [h] at hph
      simp [phoneFormatOk] at hph
    have hrpt : truthyS (some rPhone) = true := by simp [truthyS, hrpne]
    simp only [createDelivery, Option.getD_some]
    rw [if_neg (not_not_intro ⟨hptne, hft, hrnt, hrpt⟩),
        if_neg (not_not_intro ⟨hp1, hp2, hd1, hd2⟩),
        if_neg (not_not_intro hpt), if_neg (not_le.mpr hf),
        if_neg (by simp [hph]), if_neg (by simp)]

/-- Witness for C9: a ride created with pickup latitude 200 — far outside
[-90, 90] — is accepted and stored verbatim. -/
theorem claim9_create_accepts_out_of_range_witness :
    createRide ⟨"user1", "user"⟩
        (some { address := none, latitude := some 200,
                longitude := some 92, placeId := none })
        (some { address := none, latitude := some 24,
                longitude := some 92, placeId := none })
        (some "economy") (some 164) none false 0 =
      .ok { userId := "user1", driverId := none,
            pickup := ⟨200, 92⟩, destination := ⟨24, 92⟩,
            vehicleType := "economy", fare := 164, notes := "",
            status := .requested, createdAt := 0, updatedAt := 0,
            acceptedAt := none, startedAt := none, completedAt := none,
            cancelledAt := none, cancelledBy := none,
            cancellationReason := none, cancellationFee := none } ∧
    ¬ ((200 : ℚ) ≤ 90) :=
  ⟨claim9_create_accepts_out_of_range.1 ⟨"user1", "user"⟩
     { address := none, latitude := some 200, longitude := some 92,
       placeId := none }
     { address := none, latitude := some 24, longitude := some 92,
       placeId := none }
     "economy" 164 none 0 (Or.inl rfl) (by norm_num)
     (by decide) (by decide) (by decide) (by decide),
   by norm_num⟩

/-- C10: a create request whose pickup or destination has a latitude or
longitude equal to the number 0 is rejected with the
`Invalid coordinates` validation error, because the handler's presence
check uses JavaScript falsiness (`!pickup.latitude`) and the number 0 is
falsy. -/
theorem claim10_zero_coordinate_rejected :
    (∀ (u : AuthUser) (p dst : LocInput) (vtO : Option String)
        (fO : Option ℚ) (notes : Option String) (active : Bool) (now : Int),
      truthyS vtO = true → truthyQ fO = true →
      (p.latitude = some 0 ∨ p.longitude = some 0 ∨
        dst.latitude = some 0 ∨ dst.longitude = some 0) →
      createRide u (some p) (some dst) vtO fO notes active now =
        .error (.validation "Invalid coordinates")) ∧
    (∀ (u : AuthUser) (p dst : LocInput) (ptO : Option String)
        (fO : Option ℚ) (rnO rpO : Option String) (notes : Option String)
        (active : Bool) (now : Int),
      truthyS ptO = true → truthyQ fO = true →
      truthyS rnO = true → truthyS rpO = true →
      (p.latitude = some 0 ∨ p.longitude = some 0 ∨
        dst.latitude = some 0 ∨ dst.longitude = some 0) →
      createDelivery u (some p) (some dst) ptO fO rnO rpO notes active now =
        .error (.validation "Invalid coordinates")) := by
  constructor
  · intro u p dst vtO fO notes active now hvt hf hzero
    have hcond : ¬ (truthyQ p.latitude = true ∧ truthyQ p.longitude = true ∧
        truthyQ dst.latitude = true ∧ truthyQ dst.longitude = true) := by
      rintro ⟨h1, h2, h3, h4⟩
      rcases hzero with h | h | h | h
      · rw [h] at h1; exact absurd h1 (by simp [truthyQ])
      · rw [h] at h2; exact absurd h2 (by simp [truthyQ])
      · rw [h] at h3; exact absurd h3 (by simp [truthyQ])
      · rw [h] at h4; exact absurd h4 (by simp [truthyQ])
    simp only [createRide]
    rw [if_neg (not_not_intro ⟨hvt, hf⟩), if_pos hcond]
  · intro u p dst ptO fO rnO rpO notes active now hpt hf hrn hrp hzero
    have hcond : ¬ (truthyQ p.latitude = true ∧ truthyQ p.longitude = true ∧
        truthyQ dst.latitude = true ∧ truthyQ dst.longitude = true) := by
      rintro ⟨h1, h2, h3, h4⟩
      rcases hzero with h | h | h | h
      · rw [h] at h1; exact absurd h1 (by simp [truthyQ])
      · rw [h] at h2; exact absurd h2 (by simp [truthyQ])
      · rw [h] at h3; exact absurd h3 (by simp [truthyQ])
      · rw [h] at h4; exact absurd h4 (by simp [truthyQ])
    simp only [createDelivery]
    rw [if_neg (not_not_intro ⟨hpt, hf, hrn, hrp⟩), if_pos hcond]

/-- Witness for C10: a pickup on the equator (latitude 0) and a
destination on the prime meridian (longitude 0) are both rejected as
`Invalid coordinates`. -/
theorem claim10_zero_coordinate_rejected_witness :
    createRide ⟨"user1", "user"⟩
        (some { address := none, latitude := some 0,
                longitude := some 92, placeId := none })
        (some { address := none, latitude := some 24,
                longitude := some 92, placeId := none })
        (some "economy") (some 164) none false 0 =
      .error (.validation "Invalid coordinates") ∧
    createDelivery ⟨"user1", "user"⟩
        (some { address := none, latitude := some 24,
                longitude := some 92, placeId := none })
        (some { address := none, latitude := some 24,
                longitude := some 0, placeId := none })
        (some "document") (some 80) (some "Raju") (some "+917000000000")
        none false 0 =
      .error (.validation "Invalid coordinates") :=
  ⟨claim10_zero_coordinate_rejected.1 ⟨"user1", "user"⟩
     { address := none, latitude := some 0, longitude := some 92,
       placeId := none }
     { address := none, latitude := some 24, longitude := some 92,
       placeId := none }
     (some "economy") (some 164) none false 0 (by decide) (by decide)
     (Or.inl rfl),
   claim10_zero_coordinate_rejected.2 ⟨"user1", "user"⟩
     { address := none, latitude := some 24, longitude := some 92,
       placeId := none }
     { address := none, latitude := some 24, longitude := some 0,
       placeId := none }
     (some "document") (some 80) (some "Raju") (some "+917000000000")
     none false 0 (by decide) (by decide) (by decide) (by decide)
     (Or.inr (Or.inr (Or.inr rfl)))⟩
